import Mathlib

/-!
Verification development for the bot-AI component (MABotAIComponent):
a shallow embedding in Lean 4 of the task selector, destination resolution,
target evaluation, weapon selection and the predictive-aim solver, with
theorems checking the natural-language specification against the code.

Floating-point values are embedded as exact rationals.  Engine collaborators
(vector norms, square roots, ground raycasts, rotation construction) are
oracles carried in an `Env` record; theorems that need arithmetic facts about
an oracle state them as hypotheses on the concrete values involved.
-/

namespace MABotAI

/-- UE SMALL_NUMBER = 1.e-8f, the tolerance used by IsNearlyEqual/IsNearlyZero
and the solver's positivity checks. -/
def smallNumber : ℚ := 1 / 100000000

/-- FMath::IsNearlyEqual with the default tolerance. -/
def isNearlyEqualQ (a b : ℚ) : Bool := |a - b| ≤ smallNumber

/-- FMath::IsNearlyZero with the default tolerance. -/
def isNearlyZeroQ (a : ℚ) : Bool := |a| ≤ smallNumber

/-- FMath::Clamp (X < Min ? Min : X < Max ? X : Max). -/
def clampQ (x lo hi : ℚ) : ℚ := if x < lo then lo else if x < hi then x else hi

/-- C-style truncation toward zero of a float value stored into an int. -/
def truncQ (q : ℚ) : Int := if 0 ≤ q then ⌊q⌋ else -⌊-q⌋

/-- FVector embedded over ℚ. -/
structure Vec3 where
  x : ℚ
  y : ℚ
  z : ℚ
deriving DecidableEq, Repr

def Vec3.zero : Vec3 := ⟨0, 0, 0⟩

/-- FVector::ForwardVector, the sentinel returned by GetWeaponAimLocation. -/
def Vec3.forwardVector : Vec3 := ⟨1, 0, 0⟩

def vadd (a b : Vec3) : Vec3 := ⟨a.x + b.x, a.y + b.y, a.z + b.z⟩

/-- FVector::operator+(float Bias): adds the scalar to every component. -/
def vaddBias (a : Vec3) (bias : ℚ) : Vec3 := ⟨a.x + bias, a.y + bias, a.z + bias⟩

def vsub (a b : Vec3) : Vec3 := ⟨a.x - b.x, a.y - b.y, a.z - b.z⟩

def vneg (a : Vec3) : Vec3 := ⟨-a.x, -a.y, -a.z⟩

def vscale (k : ℚ) (a : Vec3) : Vec3 := ⟨k * a.x, k * a.y, k * a.z⟩

/-- Vector / scalar (componentwise). -/
def vdiv (a : Vec3) (k : ℚ) : Vec3 := ⟨a.x / k, a.y / k, a.z / k⟩

def dotV (a b : Vec3) : ℚ := a.x * b.x + a.y * b.y + a.z * b.z

/-- X*X + Y*Y + Z*Z, computed exactly (used by the normalization branch tests). -/
def sqSum (a : Vec3) : ℚ := a.x * a.x + a.y * a.y + a.z * a.z

/-- Enumerated AI tasks (EAIStates). -/
inductive EAIStates
  | ShootAtTarget | ChangeTarget | WaitForBetterShot | LookingForEnemy
  | MoveToTarget | RouteRunner | RunningRoute
deriving DecidableEq, Repr

/-- Bot roles (EBotTypes). -/
inductive EBotTypes
  | StayAtHome | Chase | Offense | LO | RouteRunner | StationaryDefense
deriving DecidableEq, Repr

/-- Accuracy tiers (EBotAccuracyLevels); Perfect is the tier absent from the
skew/fire-suppression switches. -/
inductive EBotAccuracyLevels
  | Horrible | Decent | Good | Perfect
deriving DecidableEq, Repr

/-- Route-following sub-state (EAIRouteState). -/
inductive EAIRouteState
  | NoRouteSelected | MovingToRouteStart | RunningRoute | RouteFinished | AbandonedRoute
deriving DecidableEq, Repr

/-- Semantic type of the desired move location (EAIMoveTargetTypes). -/
inductive EAIMoveTargetTypes
  | RouteStart | FriendlyStand | EnemyStand | FriendlyFlag | EnemyFlag | EnemyTarget
deriving DecidableEq, Repr

/-- Derived 4-way flag state (EAIFlagStates). -/
inductive EAIFlagStates
  | BothFlagsHome | EnemyFlagTakenFriendlySafe | FriendlyTakenEnemyHome | Standoff
deriving DecidableEq, Repr

/-- An AMACharacter* value: none is nullptr, some id indexes the target table. -/
abbrev Ptr := Option Nat

/-- Per-target world data read through actor accessors. -/
structure TargetData where
  isValidObj : Bool
  isValidLowLevel : Bool
  nameHasLightChar : Bool
  hasMesh1P : Bool
  health : ℚ
  timeOfDeath : ℚ
  pos : Vec3
  vel : Vec3
  carriesObject : Bool
deriving DecidableEq, Repr

/-- An FRotator. -/
structure Rot where
  pitch : ℚ
  yaw : ℚ
  roll : ℚ
deriving DecidableEq, Repr

/-- World/engine collaborators and per-cycle external inputs, packaged as a
read-only environment.  `norm` is Size() (the Euclidean norm oracle), `sqrtQ`
is FMath::Sqrt, `groundZ` is the downward static-geometry raycast impact Z at
an (x, y) column (none = no hit). -/
structure Env where
  now : ℚ
  botPos : Vec3
  botVel : Vec3
  botUp : Vec3
  carried : Bool
  norm : Vec3 → ℚ
  sqrtQ : ℚ → ℚ
  groundZ : ℚ → ℚ → Option ℚ
  targets : Nat → TargetData
  aimCanSee : Bool
  wEnemyFlagLoc : Vec3
  wEnemyFlagHome : Bool
  wEnemyFlagHeld : Bool
  wFriendlyFlagLoc : Vec3
  wFriendlyFlagHome : Bool
  wFriendlyFlagHeld : Bool
  pcCurrentMarkerIndex : Int
  pcRouteMarkerCount : Int
  pcPathRecordMarkerInterval : ℚ
  pcModulusLowPrecision : ℚ
  chosenRouteMarkerCount : Nat
  chosenRouteFirstMarker : Vec3
  chosenRouteGrabTime : ℚ
  weaponExists : Bool
  weaponIsRingLauncher : Bool
  weaponIsChaingun : Bool
  weaponHeat : ℚ
  weaponIdle : Bool
  weaponStateTimeElapsed : ℚ
  weaponReloadTime : ℚ
  controlRotation : Rot
  rotFromXZ : Vec3 → Vec3 → Rot
  orientationRot : Vec3 → Rot
  rotVec : Rot → Vec3
  acosDeg : ℚ → ℚ
  traceHitLoc : Vec3 → Vec3 → Vec3

/-- BotConfig fields read by the core. -/
structure BotConfig where
  botType : EBotTypes
  accuracyLevel : EBotAccuracyLevels
  bNoChaingun : Bool
  bNoDisc : Bool
  bBotShoots : Bool
  routeNameCount : Nat
deriving DecidableEq, Repr

/-- Mutable per-bot state: AIState plus the component-level timestamps and
GameState fields the core writes. -/
structure BotState where
  currentTask : EAIStates
  currentTarget : Ptr
  bPendingWeaponFire : Bool
  routeState : EAIRouteState
  moveTargetType : EAIMoveTargetTypes
  desiredMoveLocation : Vec3
  routeStartLocation : Vec3
  currentRouteGrabTime : ℚ
  currentRouteMarkerCount : Nat
  bIsHoldingFlag : Bool
  isTaskInitialized : Bool
  recentlySeen : List (Ptr × ℚ)
  timeOfTaskStart : ℚ
  timeOfLastLookForEnemy : ℚ
  timeOfLastMovementTargetChange : ℚ
  timeOfLastSpawn : ℚ
  timeOfLastWeaponChange : ℚ
  timeOfLastShot : ℚ
  timeOfLastAimpointChange : ℚ
  randomPitchSkew : ℚ
  randomYawSkew : ℚ
  randomProjectilePropertiesSkew : ℚ
  distanceToEnemyFlag : ℚ
  distanceToFriendlyFlag : ℚ
  gsEnemyFlagLocation : Vec3
  gsFriendlyFlagLocation : Vec3
  gsEnemyFlagHome : Bool
  gsFriendlyFlagHome : Bool
  gsEnemyFlagHeld : Bool
  gsFriendlyFlagHeld : Bool
  gsFlagState : EAIFlagStates
  gsFriendlyStandLocation : Vec3
  gsEnemyStandLocation : Vec3
deriving DecidableEq, Repr

/-- DistanceBetweenTargets: Abs((MyLocation - TargetLocation).Size()). -/
def distanceBetweenTargets (env : Env) (myLoc targetLoc : Vec3) : ℚ :=
  |env.norm (vsub myLoc targetLoc)|

/-- DistanceToTarget: 9999999 for nullptr, else distance from the bot. -/
def distanceToTarget (env : Env) (target : Ptr) : ℚ :=
  match target with
  | none => 9999999
  | some id => distanceBetweenTargets env env.botPos (env.targets id).pos

/-- GetHeightAboveGround: downward raycast from (x, y, 10000) to (x, y, -10000);
Point.Z minus the impact Z on a hit, 0 otherwise. -/
def getHeightAboveGround (env : Env) (point : Vec3) : ℚ :=
  match env.groundZ point.x point.y with
  | some impactZ => point.z - impactZ
  | none => 0

/-- GetTargetVelocity: Size() * 0.036 (engine units to KPH), 0 for an
invalid/null target. -/
def getTargetVelocity (env : Env) (target : Ptr) : ℚ :=
  match target with
  | none => 0
  | some id =>
    let d := env.targets id
    if !d.isValidObj || !d.isValidLowLevel then 0
    else env.norm d.vel * (36 / 1000)

/-- FVector::Normalize(SMALL_NUMBER): rescales only when the exact square sum
exceeds the tolerance, otherwise leaves the vector unchanged. -/
def normalizeMember (env : Env) (v : Vec3) : Vec3 :=
  if smallNumber < sqSum v then vscale (1 / env.norm v) v else v

/-- FVector::GetSafeNormal(SMALL_NUMBER). -/
def getSafeNormal (env : Env) (v : Vec3) : Vec3 :=
  if sqSum v = 1 then v
  else if sqSum v < smallNumber then Vec3.zero
  else vscale (1 / env.norm v) v

/-- The target-position adjustment step at the top of PredictiveAim, verbatim:
`groundHeight` is bound to GetHeightAboveGround(targetPosition) (which returns
the height ABOVE ground, not the ground height), the guard compares
targetPosition.Z - groundHeight with 600, and on success Z is assigned
groundHeight. -/
def paSnapTargetPosition (env : Env) (targetPosition : Vec3) : Vec3 :=
  let groundHeight := getHeightAboveGround env targetPosition
  if targetPosition.z - groundHeight < 600 then { targetPosition with z := groundHeight }
  else targetPosition

/-- Result of the intercept solve inside PredictiveAim. -/
structure AimSolveResult where
  validSolutionFound : Bool
  t : ℚ
  projectileVelocity : Vec3
deriving DecidableEq, Repr

/-- PredictiveAim, with the solve's intermediate flag and time exposed.
`randT` is the value drawn by FMath::RandRange(1, 5) on the fallback paths.
The gravity parameter is accepted and, as in the source (whose gravity block
is commented out), never used. -/
def predictiveAimSolve (env : Env) (muzzlePosition : Vec3) (projectileSpeed : ℚ)
    (targetPosition : Vec3) (targetVelocity : Vec3) (gravity : ℚ) (randT : ℚ) :
    AimSolveResult :=
  let _ := gravity
  let projectileSpeedSq := projectileSpeed * projectileSpeed
  let targetSpeedSq := env.norm targetVelocity * env.norm targetVelocity
  let targetSpeed := env.norm targetVelocity
  let targetToMuzzle := vsub muzzlePosition targetPosition
  let targetToMuzzleDistSq := env.norm targetToMuzzle * env.norm targetToMuzzle
  let targetToMuzzleDist := env.norm targetToMuzzle
  let targetToMuzzleDir := normalizeMember env targetToMuzzle
  let _targetPositionAdjusted := paSnapTargetPosition env targetPosition
  let cosTheta :=
    if 0 < targetSpeedSq then dotV targetToMuzzleDir (getSafeNormal env targetVelocity)
    else 1
  let vt : Bool × ℚ :=
    if isNearlyEqualQ projectileSpeedSq targetSpeedSq then
      if 0 < cosTheta then
        (true, (1 / 2) * targetToMuzzleDist / (targetSpeed * cosTheta))
      else
        (false, randT)
    else
      let a := projectileSpeedSq - targetSpeedSq
      let b := 2 * targetToMuzzleDist * targetSpeed * cosTheta
      let c := -targetToMuzzleDistSq
      let discriminant := b * b - 4 * a * c
      if discriminant < 0 then
        (false, randT)
      else
        let uglyNumber := env.sqrtQ discriminant
        let t0 := (1 / 2) * (-b + uglyNumber) / a
        let t1 := (1 / 2) * (-b - uglyNumber) / a
        let tLow := min t0 t1
        let tPicked := if tLow < smallNumber then max t0 t1 else tLow
        if tPicked < smallNumber then (false, randT) else (true, tPicked)
  let validSolutionFound := vt.1
  let t := vt.2
  let leadVelocity := vadd targetVelocity (vdiv (vneg targetToMuzzle) t)
  let projectileVelocity :=
    if validSolutionFound then leadVelocity
    else vscale projectileSpeed (getSafeNormal env leadVelocity)
  ⟨validSolutionFound, t, projectileVelocity⟩

/-- PredictiveAim's return value. -/
def predictiveAim (env : Env) (muzzlePosition : Vec3) (projectileSpeed : ℚ)
    (targetPosition : Vec3) (targetVelocity : Vec3) (gravity : ℚ) (randT : ℚ) : Vec3 :=
  (predictiveAimSolve env muzzlePosition projectileSpeed targetPosition targetVelocity
    gravity randT).projectileVelocity

/-- GetTargetFocusScore: 0 for a null/invalid/meshless target, otherwise the
additive desirability score. -/
def getTargetFocusScore (env : Env) (currentTarget : Ptr) (target : Ptr) : ℚ :=
  match target with
  | none => 0
  | some id =>
    let d := env.targets id
    if !d.isValidLowLevel || !d.isValidObj || !d.hasMesh1P then 0
    else
      let s1 : ℚ := if target = currentTarget then 30 else 0
      let s2 := s1 + (200 - d.health) / 10
      let s3 := s2 + (200 - getTargetVelocity env target) / 5
      let targetHeightAboveGround := getHeightAboveGround env d.pos
      let s4 := if targetHeightAboveGround < 200 then s3 + 30 else s3
      let s5 := s4 + clampQ ((10000 - distanceToTarget env target) / 100) (-100) 40
      if d.carriesObject then s5 + 50 else s5

/-- The (DiscWeight, ChaingunWeight) pair computed by SelectBestWeapon for
target `id`, including the config hard-disables and the per-accuracy chaingun
cool-down penalty. -/
def weaponWeights (env : Env) (cfg : BotConfig) (s : BotState) (id : Nat) : ℚ × ℚ :=
  let d := env.targets id
  let discWeight : ℚ := 1
  let chaingunWeight : ℚ := 0
  let _nadeWeight : ℚ := 0
  let (discWeight, chaingunWeight) :=
    if d.health < 50 then (discWeight + 5, chaingunWeight + 30)
    else (discWeight, chaingunWeight)
  let targetHeightAboveGround := getHeightAboveGround env d.pos
  let (discWeight, chaingunWeight) :=
    if targetHeightAboveGround < 600 then (discWeight + 30, chaingunWeight)
    else (discWeight, chaingunWeight + 10)
  let chaingunWeight :=
    if 160 < getTargetVelocity env (some id) then chaingunWeight + 15 else chaingunWeight
  let targetDistance := distanceToTarget env (some id)
  let (discWeight, chaingunWeight) :=
    if 10000 < targetDistance then (discWeight, chaingunWeight + 20)
    else if targetDistance < 3000 then (discWeight + 20, chaingunWeight)
    else (discWeight, chaingunWeight)
  let targetDistancePlusVelocity :=
    distanceBetweenTargets env env.botPos
      (vaddBias d.pos (getTargetVelocity env (some id)))
  let discWeight :=
    if (8 / 10) * env.norm d.vel < |targetDistancePlusVelocity - targetDistance| then
      discWeight + 15
    else discWeight
  let chaingunWeight := if cfg.bNoChaingun then -100 else chaingunWeight
  let discWeight := if cfg.bNoDisc then -100 else discWeight
  let chaingunWeight :=
    if env.weaponIsChaingun then
      let timeSinceLastWeaponChange := env.now - s.timeOfLastWeaponChange
      if cfg.accuracyLevel = EBotAccuracyLevels.Horrible ∧ 2 < timeSinceLastWeaponChange then
        chaingunWeight - 50
      else if cfg.accuracyLevel = EBotAccuracyLevels.Decent ∧ 3 < timeSinceLastWeaponChange then
        chaingunWeight - 20
      else chaingunWeight
    else chaingunWeight
  (discWeight, chaingunWeight)

/-- Outcome of SelectBestWeapon: the weapon index passed to
SwitchToWeaponAtIndex (0 = disc / RingLauncher, 2 = chaingun) and the
resulting TimeOfLastWeaponChange. -/
structure WeaponChoice where
  switchToIndex : Nat
  timeOfLastWeaponChange : ℚ
deriving DecidableEq, Repr

/-- SelectBestWeapon: none when the entry guard returns early (no target,
target has a recorded time of death, or the last switch was under 2s ago). -/
def selectBestWeapon (env : Env) (cfg : BotConfig) (s : BotState) : Option WeaponChoice :=
  match s.currentTarget with
  | none => none
  | some id =>
    if !isNearlyZeroQ (env.targets id).timeOfDeath then none
    else if env.now - s.timeOfLastWeaponChange < 2 then none
    else
      let w := weaponWeights env cfg s id
      if w.2 < w.1 then
        some ⟨0, if env.weaponIsChaingun then env.now else s.timeOfLastWeaponChange⟩
      else
        some ⟨2, if env.weaponIsRingLauncher then env.now else s.timeOfLastWeaponChange⟩

/-- TMap::Add on the assoc-list model: replace the value at an existing key in
place, else append. -/
def tmapAdd {κ : Type} [DecidableEq κ] (l : List (κ × ℚ)) (k : κ) (v : ℚ) :
    List (κ × ℚ) :=
  match l with
  | [] => [(k, v)]
  | e :: rest => if e.1 = k then (k, v) :: rest else e :: tmapAdd rest k v

/-- IsValid on a possibly-null character pointer. -/
def ptrIsValidObj (env : Env) (p : Ptr) : Bool :=
  match p with
  | none => false
  | some id => (env.targets id).isValidObj

/-- PossibleTargetDied: clear the current target if it is the dead one, and
rebuild the recently-seen map keeping only non-null, valid entries other than
the dead target. -/
def possibleTargetDied (env : Env) (s : BotState) (target : Ptr) : BotState :=
  let s1 := if s.currentTarget = target then { s with currentTarget := none } else s
  let validRecentlySeenTargets :=
    s1.recentlySeen.foldl
      (fun acc e =>
        if e.1 ≠ none ∧ ptrIsValidObj env e.1 ∧ e.1 ≠ target then tmapAdd acc e.1 e.2
        else acc)
      []
  { s1 with recentlySeen := validRecentlySeenTargets }

/-- The GameState/AIState fields written by the full (non-early-return) path of
DetermineMoveLocation. -/
structure GsUpd where
  gsEnemyFlagLocation : Vec3
  gsEnemyFlagHome : Bool
  gsEnemyFlagHeld : Bool
  distanceToEnemyFlag : ℚ
  gsFriendlyFlagLocation : Vec3
  gsFriendlyFlagHome : Bool
  gsFriendlyFlagHeld : Bool
  distanceToFriendlyFlag : ℚ
  gsFlagState : EAIFlagStates
  bIsHoldingFlag : Bool
deriving DecidableEq, Repr

/-- The full path of DetermineMoveLocation (after the route-start early
return).  The second component of the destination pair is `none` while
AIState.MoveTargetType has not been assigned on this path (it is only ever
written, never read, inside the function, so the pending value can be threaded
as an Option). -/
def dmlFullCore (env : Env) (cfg : BotConfig) (currentTarget : Ptr)
    (friendlyStand enemyStand : Vec3) :
    (Vec3 × Option EAIMoveTargetTypes) × GsUpd :=
  let targetDistance := distanceToTarget env currentTarget
  let distanceToEnemyFlag := distanceBetweenTargets env env.botPos env.wEnemyFlagLoc
  let distanceToFriendlyFlag := distanceBetweenTargets env env.botPos env.wFriendlyFlagLoc
  let flagState :=
    if env.wEnemyFlagHome ∧ env.wFriendlyFlagHome then EAIFlagStates.BothFlagsHome
    else if ¬env.wEnemyFlagHome ∧ env.wFriendlyFlagHome then
      EAIFlagStates.EnemyFlagTakenFriendlySafe
    else if env.wEnemyFlagHome ∧ ¬env.wFriendlyFlagHome then
      EAIFlagStates.FriendlyTakenEnemyHome
    else EAIFlagStates.Standoff
  let bIsHoldingFlag := env.carried
  let p0 : Vec3 × Option EAIMoveTargetTypes := (Vec3.zero, none)
  let p1 := if bIsHoldingFlag then (friendlyStand, some EAIMoveTargetTypes.FriendlyStand) else p0
  let p2 :=
    if ¬bIsHoldingFlag ∧ cfg.botType = EBotTypes.Chase then
      (env.wFriendlyFlagLoc, some EAIMoveTargetTypes.FriendlyFlag)
    else p1
  let p3 :=
    if ¬bIsHoldingFlag ∧ (cfg.botType = EBotTypes.Offense ∨ cfg.botType = EBotTypes.LO) then
      if ¬env.wEnemyFlagHome ∧ ¬env.wEnemyFlagHeld ∧ distanceToEnemyFlag < 5000 then
        (env.wEnemyFlagLoc, some EAIMoveTargetTypes.EnemyFlag)
      else if ¬env.wFriendlyFlagHeld ∧ ¬env.wFriendlyFlagHome ∧ distanceToFriendlyFlag < 5000 then
        (env.wFriendlyFlagLoc, some EAIMoveTargetTypes.FriendlyFlag)
      else if flagState = EAIFlagStates.Standoff then
        (env.wFriendlyFlagLoc, some EAIMoveTargetTypes.FriendlyFlag)
      else if cfg.botType = EBotTypes.Offense then
        (env.wEnemyFlagLoc, some EAIMoveTargetTypes.EnemyFlag)
      else if cfg.botType = EBotTypes.LO then
        if flagState = EAIFlagStates.EnemyFlagTakenFriendlySafe then
          (env.wEnemyFlagLoc, some EAIMoveTargetTypes.EnemyFlag)
        else (enemyStand, some EAIMoveTargetTypes.EnemyStand)
      else p2
    else p2
  let p4 :=
    if cfg.botType = EBotTypes.StayAtHome then
      if flagState = EAIFlagStates.Standoff ∨
          (flagState = EAIFlagStates.EnemyFlagTakenFriendlySafe ∧
            distanceToEnemyFlag < 10000 ∧ ¬env.wEnemyFlagHeld) then
        (env.wEnemyFlagLoc, some EAIMoveTargetTypes.EnemyFlag)
      else if flagState = EAIFlagStates.FriendlyTakenEnemyHome ∧
          distanceToFriendlyFlag < 10000 then
        (env.wFriendlyFlagLoc, some EAIMoveTargetTypes.FriendlyFlag)
      else (friendlyStand, some EAIMoveTargetTypes.FriendlyStand)
    else p3
  let distanceToMoveLocation := distanceBetweenTargets env env.botPos p4.1
  let p5 :=
    match currentTarget with
    | some id =>
      if targetDistance < 20000 ∧ distanceToMoveLocation < 10000 then
        ((env.targets id).pos, some EAIMoveTargetTypes.EnemyTarget)
      else p4
    | none => p4
  let friendlyFlagOverrideDistance : ℚ :=
    if cfg.botType = EBotTypes.StayAtHome then 10000
    else if cfg.botType = EBotTypes.Chase then 15000
    else 5000
  let enemyFlagOverrideDistance : ℚ :=
    if cfg.botType = EBotTypes.StayAtHome then 15000 else 5000
  let p6 :=
    if distanceToFriendlyFlag < friendlyFlagOverrideDistance ∧ ¬env.wFriendlyFlagHeld ∧
        (flagState = EAIFlagStates.FriendlyTakenEnemyHome ∨ flagState = EAIFlagStates.Standoff) then
      (env.wFriendlyFlagLoc, some EAIMoveTargetTypes.FriendlyFlag)
    else p5
  let p7 :=
    if distanceToEnemyFlag < enemyFlagOverrideDistance ∧ ¬env.wEnemyFlagHeld ∧
        (flagState = EAIFlagStates.EnemyFlagTakenFriendlySafe ∨ flagState = EAIFlagStates.Standoff) then
      (env.wEnemyFlagLoc, some EAIMoveTargetTypes.EnemyFlag)
    else p6
  let p8 :=
    if bIsHoldingFlag ∧ env.wFriendlyFlagHome then
      (friendlyStand, some EAIMoveTargetTypes.FriendlyStand)
    else p7
  (p8,
    { gsEnemyFlagLocation := env.wEnemyFlagLoc
      gsEnemyFlagHome := env.wEnemyFlagHome
      gsEnemyFlagHeld := env.wEnemyFlagHeld
      distanceToEnemyFlag := distanceToEnemyFlag
      gsFriendlyFlagLocation := env.wFriendlyFlagLoc
      gsFriendlyFlagHome := env.wFriendlyFlagHome
      gsFriendlyFlagHeld := env.wFriendlyFlagHeld
      distanceToFriendlyFlag := distanceToFriendlyFlag
      gsFlagState := flagState
      bIsHoldingFlag := bIsHoldingFlag })

/-- DetermineMoveLocation as a state transformer. -/
def determineMoveLocation (env : Env) (cfg : BotConfig) (s : BotState) : BotState :=
  if cfg.botType = EBotTypes.Offense ∧ s.routeState = EAIRouteState.MovingToRouteStart then
    { s with moveTargetType := EAIMoveTargetTypes.RouteStart,
             desiredMoveLocation := s.routeStartLocation }
  else
    let core := dmlFullCore env cfg s.currentTarget s.gsFriendlyStandLocation
      s.gsEnemyStandLocation
    let newTy := core.1.2.getD s.moveTargetType
    let s1 :=
      { s with
        desiredMoveLocation := core.1.1
        moveTargetType := newTy
        gsEnemyFlagLocation := core.2.gsEnemyFlagLocation
        gsEnemyFlagHome := core.2.gsEnemyFlagHome
        gsEnemyFlagHeld := core.2.gsEnemyFlagHeld
        distanceToEnemyFlag := core.2.distanceToEnemyFlag
        gsFriendlyFlagLocation := core.2.gsFriendlyFlagLocation
        gsFriendlyFlagHome := core.2.gsFriendlyFlagHome
        gsFriendlyFlagHeld := core.2.gsFriendlyFlagHeld
        distanceToFriendlyFlag := core.2.distanceToFriendlyFlag
        gsFlagState := core.2.gsFlagState
        bIsHoldingFlag := core.2.bIsHoldingFlag }
    if s.moveTargetType ≠ newTy then { s1 with timeOfLastMovementTargetChange := env.now }
    else s1

/-- IsValidLowLevel on a possibly-null character pointer. -/
def ptrIsValidLowLevel (env : Env) (p : Ptr) : Bool :=
  match p with
  | none => false
  | some id => (env.targets id).isValidLowLevel

/-- GetDebugName(..).Contains("BP_LightCharacter") on a possibly-null pointer. -/
def ptrNameHasLightChar (env : Env) (p : Ptr) : Bool :=
  match p with
  | none => false
  | some id => (env.targets id).nameHasLightChar

/-- FMath::IsNearlyZero(GetHealth()) on a possibly-null pointer. -/
def ptrHealthNearlyZero (env : Env) (p : Ptr) : Bool :=
  match p with
  | none => false
  | some id => isNearlyZeroQ (env.targets id).health

/-- The ephemeral TaskWeights map. -/
abbrev TaskWeights := List (EAIStates × ℚ)

/-- TaskWeights.Add. -/
def twAddW (l : TaskWeights) (k : EAIStates) (v : ℚ) : TaskWeights := tmapAdd l k v

/-- Integer FMath::Clamp. -/
def clampI (x lo hi : Int) : Int := if x < lo then lo else if x < hi then x else hi

/-- DetermineRouteToRun: record the externally chosen route's data and move to
the route start (no-op when no route names are configured). -/
def determineRouteToRun (env : Env) (cfg : BotConfig) (s : BotState) : BotState :=
  if cfg.routeNameCount = 0 then s
  else
    let s1 := { s with currentRouteGrabTime := env.chosenRouteGrabTime,
                       currentRouteMarkerCount := env.chosenRouteMarkerCount }
    let s2 :=
      if 0 < env.chosenRouteMarkerCount then
        { s1 with routeStartLocation := env.chosenRouteFirstMarker }
      else s1
    { s2 with routeState := EAIRouteState.MovingToRouteStart }

/-- StartRouteFollow: begin route playback (guarded by the task-initialized
flag and a nonempty route). -/
def startRouteFollow (s : BotState) : BotState :=
  if s.isTaskInitialized ∨ s.currentRouteMarkerCount < 1 then s
  else
    { s with isTaskInitialized := true, routeState := EAIRouteState.RunningRoute,
             currentTask := EAIStates.RunningRoute }

/-- The AbandonedRoute tail of the Offense-role weighting block; none = a
respawn (Suicide + OnDied + return) was taken. -/
def offenseAbandonedStage (env : Env) (w : TaskWeights) (s : BotState)
    (distanceToMoveLocation : ℚ) : Option (TaskWeights × BotState) :=
  if s.routeState = EAIRouteState.AbandonedRoute then
    if s.bIsHoldingFlag ∧ (3000 < distanceToMoveLocation ∨ s.gsFriendlyFlagHome) then
      some (twAddW w EAIStates.MoveToTarget 200, s)
    else
      if 10 < env.now - s.timeOfLastSpawn ∧ ¬s.bIsHoldingFlag ∧ s.gsEnemyFlagHome then
        none
      else some (twAddW w EAIStates.MoveToTarget 20, s)
  else some (w, s)

/-- The MovingToRouteStart stage of the Offense-role weighting block. -/
def offenseRouteStartStage (w : TaskWeights) (s : BotState)
    (distanceToMoveLocation timeSinceLastMovementChange : ℚ) : TaskWeights × BotState :=
  if s.routeState = EAIRouteState.MovingToRouteStart then
    if s.moveTargetType = EAIMoveTargetTypes.RouteStart ∧
        distanceToMoveLocation <
          timeSinceLastMovementChange * timeSinceLastMovementChange * 10 ∧
        distanceToMoveLocation < 5000 then
      (w, startRouteFollow s)
    else (twAddW w EAIStates.MoveToTarget 70, s)
  else (w, s)

/-- The RunningRoute stage of the Offense-role weighting block. -/
def offenseRunningStage (env : Env) (w : TaskWeights) (s : BotState) :
    TaskWeights × BotState :=
  if s.routeState = EAIRouteState.RunningRoute then
    let priorMarkerNumber := clampI (env.pcCurrentMarkerIndex - 1) 0 env.pcRouteMarkerCount
    let grabMarker :=
      truncQ (s.currentRouteGrabTime / env.pcPathRecordMarkerInterval /
        env.pcModulusLowPrecision)
    if (grabMarker < priorMarkerNumber ∧ ¬env.carried) ∨
        priorMarkerNumber = env.pcRouteMarkerCount - 2 then
      (w, { s with routeState := EAIRouteState.AbandonedRoute })
    else (twAddW w EAIStates.RunningRoute 170, s)
  else (w, s)

/-- The RouteFinished stage of the Offense-role weighting block (falls through
to the AbandonedRoute tail); none = a respawn was taken. -/
def offenseFinishedStage (env : Env) (w : TaskWeights) (s : BotState)
    (distanceToMoveLocation : ℚ) : Option (TaskWeights × BotState) :=
  if s.routeState = EAIRouteState.RouteFinished then
    if s.moveTargetType = EAIMoveTargetTypes.FriendlyStand ∧ s.bIsHoldingFlag then
      if s.gsFlagState = EAIFlagStates.EnemyFlagTakenFriendlySafe then
        offenseAbandonedStage env (twAddW w EAIStates.MoveToTarget 200) s
          distanceToMoveLocation
      else
        offenseAbandonedStage env
          (twAddW w EAIStates.MoveToTarget
            (clampQ ((distanceToMoveLocation - 500) / 100) 15 150))
          s distanceToMoveLocation
    else none
  else offenseAbandonedStage env w s distanceToMoveLocation

/-- The Offense-role weighting block of DetermineCurrentTask; none = a respawn
(Suicide + OnDied + return) was taken. -/
def offensePhase (env : Env) (w : TaskWeights) (s : BotState)
    (distanceToMoveLocation timeSinceLastMovementChange : ℚ) :
    Option (TaskWeights × BotState) :=
  let a := offenseRouteStartStage w s distanceToMoveLocation timeSinceLastMovementChange
  let b := offenseRunningStage env a.1 a.2
  offenseFinishedStage env b.1 b.2 distanceToMoveLocation

/-- The Chase-role weighting block; none = respawn. -/
def chasePhase (w : TaskWeights) (s : BotState)
    (distanceToMoveLocation : ℚ) : Option (TaskWeights × BotState) :=
  if s.moveTargetType = EAIMoveTargetTypes.FriendlyFlag ∧ ¬s.gsFriendlyFlagHome then
    if distanceToMoveLocation < 10000 ∨ s.currentTarget = none then
      some (twAddW w EAIStates.MoveToTarget 200, s)
    else some (twAddW w EAIStates.MoveToTarget 70, s)
  else
    if 20000 < distanceToMoveLocation ∧ s.gsFriendlyFlagHome then none
    else if 500 < distanceToMoveLocation then
      some (twAddW w EAIStates.MoveToTarget
        (clampQ ((distanceToMoveLocation - 500) / 100) 5 110), s)
    else some (w, s)

/-- The LO-role weighting block. -/
def loPhase (w : TaskWeights) (s : BotState) (distanceToMoveLocation : ℚ) : TaskWeights :=
  if ¬(s.moveTargetType = EAIMoveTargetTypes.EnemyStand) ∨ 400 < distanceToMoveLocation then
    if s.moveTargetType = EAIMoveTargetTypes.FriendlyFlag ∧ ¬s.gsFriendlyFlagHeld ∧
        ¬s.gsFriendlyFlagHome then
      twAddW w EAIStates.MoveToTarget (clampQ ((distanceToMoveLocation - 500) / 100) 10 400)
    else twAddW w EAIStates.MoveToTarget (clampQ ((distanceToMoveLocation - 500) / 100) 30 40)
  else twAddW w EAIStates.LookingForEnemy 10

/-- The StayAtHome-role weighting block. -/
def sahPhase (w : TaskWeights) (s : BotState) (distanceToMoveLocation : ℚ) : TaskWeights :=
  if s.moveTargetType = EAIMoveTargetTypes.EnemyFlag ∧ ¬s.gsEnemyFlagHeld ∧
      ¬s.bIsHoldingFlag then
    twAddW w EAIStates.MoveToTarget (clampQ ((distanceToMoveLocation - 50) / 100) 65 150)
  else if s.moveTargetType = EAIMoveTargetTypes.FriendlyFlag ∧ ¬s.gsFriendlyFlagHome ∧
      ¬s.gsFriendlyFlagHeld ∧ ¬s.bIsHoldingFlag then
    twAddW w EAIStates.MoveToTarget (clampQ ((distanceToMoveLocation - 500) / 100) 20 100)
  else
    twAddW (twAddW w EAIStates.MoveToTarget
      (clampQ ((distanceToMoveLocation - 500) / 100) 5 110)) EAIStates.LookingForEnemy 6

/-- The role-conditional weighting blocks, in source order (the role tests are
mutually exclusive). -/
def rolePhase (env : Env) (cfg : BotConfig) (w : TaskWeights) (s : BotState)
    (distanceToMoveLocation timeSinceLastMovementChange : ℚ) :
    Option (TaskWeights × BotState) :=
  match cfg.botType with
  | EBotTypes.Offense => offensePhase env w s distanceToMoveLocation timeSinceLastMovementChange
  | EBotTypes.Chase => chasePhase w s distanceToMoveLocation
  | EBotTypes.LO => some (loPhase w s distanceToMoveLocation, s)
  | EBotTypes.StayAtHome => some (sahPhase w s distanceToMoveLocation, s)
  | _ => some (w, s)

/-- The LookingForEnemy candidate weight computed when no targets are known:
time-since-last-look times 5, overridden to the constant 3 when (the last task
was not LookingForEnemy and it started at most 2s ago) or (the last task was
LookingForEnemy and it started more than 2s ago). -/
def lookForEnemyWeight (lastTask : EAIStates)
    (timeSinceTaskChange timeSinceLastCheckedForEnemies : ℚ) : ℚ :=
  let w := timeSinceLastCheckedForEnemies * 5
  if (lastTask ≠ EAIStates.LookingForEnemy ∧ timeSinceTaskChange ≤ 2) ∨
      (lastTask = EAIStates.LookingForEnemy ∧ 2 < timeSinceTaskChange) then 3
  else w

/-- The focus-score maximization loop over remembered targets, starting from
the current target with score 0. -/
def focusPick (env : Env) (currentTarget : Ptr) (pruned : List (Ptr × ℚ)) : Ptr × ℚ :=
  pruned.foldl
    (fun acc e =>
      let f := getTargetFocusScore env currentTarget e.1
      if acc.2 < f then (e.1, f) else acc)
    (currentTarget, 0)

/-- The target-independent weighting block: look-for-enemies urgency when no
target is known, otherwise prune the memory and weight shoot/change-target by
the best focus score. -/
def universalPhase (env : Env) (w : TaskWeights) (s : BotState) (lastTask : EAIStates)
    (timeSinceTaskChange timeSinceLastCheckedForEnemies : ℚ) : TaskWeights × BotState :=
  if s.recentlySeen.length = 0 ∧ s.currentTarget = none then
    (twAddW w EAIStates.LookingForEnemy
      (lookForEnemyWeight lastTask timeSinceTaskChange timeSinceLastCheckedForEnemies), s)
  else
    let targetHeightAboveGround : ℚ :=
      match s.currentTarget with
      | some id => getHeightAboveGround env (env.targets id).pos
      | none => 9999999
    let _waitForBetterShotWeight : ℚ :=
      match s.currentTarget with
      | some id =>
        if targetHeightAboveGround < 1000 ∧ (env.targets id).vel.z < -200 then 9 else 0
      | none => 0
    if 0 < s.recentlySeen.length then
      let pruned := s.recentlySeen.foldl
        (fun acc e =>
          if e.1 ≠ none ∧ ptrIsValidObj env e.1 ∧ ptrIsValidLowLevel env e.1 ∧
              ptrNameHasLightChar env e.1 ∧ env.now - e.2 < 5 then
            tmapAdd acc e.1 e.2
          else acc)
        []
      let s := { s with recentlySeen := pruned }
      let pick := focusPick env s.currentTarget pruned
      if pick.1 = s.currentTarget then
        if env.aimCanSee then (twAddW w EAIStates.ShootAtTarget pick.2, s) else (w, s)
      else
        (twAddW w EAIStates.ChangeTarget pick.2, { s with currentTarget := pick.1 })
    else (w, s)

/-- The max-weight selection loop: strict improvement over an accumulator that
starts at (current task, 0), in map iteration order. -/
def dctSelect (w : TaskWeights) (defaultTask : EAIStates) : EAIStates × ℚ :=
  w.foldl (fun acc e => if acc.2 < e.2 then (e.1, e.2) else acc) (defaultTask, 0)

/-- The post-selection steps of DetermineCurrentTask: the anti-stall stand
override, the task-change bookkeeping, and the end-of-cycle memory reset. -/
def dctFinish (env : Env) (lastTask : EAIStates) (distanceToMoveLocation : ℚ)
    (s : BotState) : BotState :=
  let s1 :=
    if s.currentTask = EAIStates.MoveToTarget ∧ distanceToMoveLocation < 300 ∧
        ((s.moveTargetType = EAIMoveTargetTypes.EnemyStand ∧ ¬s.gsEnemyFlagHome) ∨
          (s.moveTargetType = EAIMoveTargetTypes.FriendlyStand ∧
            (¬s.bIsHoldingFlag ∨ ¬s.gsFriendlyFlagHome))) then
      { s with currentTask := EAIStates.LookingForEnemy }
    else s
  let s2 :=
    if s1.currentTask ≠ lastTask then
      { s1 with timeOfTaskStart := env.now, isTaskInitialized := false }
    else s1
  { s2 with recentlySeen := [] }

/-- The route-selection step of a DetermineCurrentTask cycle (Offense role
with no route picked yet). -/
def dctRouteStage (env : Env) (cfg : BotConfig) (s : BotState) : BotState :=
  if cfg.botType = EBotTypes.Offense ∧ s.routeState = EAIRouteState.NoRouteSelected then
    determineRouteToRun env cfg s
  else s

/-- The dead/invalid current-target prune at the top of a DetermineCurrentTask
cycle. -/
def dctPruneTarget (env : Env) (s : BotState) : BotState :=
  if s.currentTarget ≠ none ∧
      (¬ptrIsValidObj env s.currentTarget ∨ ptrHealthNearlyZero env s.currentTarget) then
    { s with currentTarget := none }
  else s

/-- The front half of a DetermineCurrentTask cycle once the early returns are
passed: default the task, pick a route if needed, resolve the destination, and
prune a dead/invalid current target. -/
def dctAfterMove (env : Env) (cfg : BotConfig) (s : BotState) : BotState :=
  dctPruneTarget env
    (determineMoveLocation env cfg
      (dctRouteStage env cfg { s with currentTask := EAIStates.LookingForEnemy }))

/-- The weight-building half of a DetermineCurrentTask cycle: role weights,
the universal look/shoot/change weights, and the carrying-the-flag override.
Returns the final TaskWeights map, the state, and the cycle's
DistanceToMoveLocation; none = a respawn branch was taken. -/
def dctCore (env : Env) (cfg : BotConfig) (s : BotState) (lastTask : EAIStates)
    (timeSinceTaskChange : ℚ) : Option (TaskWeights × BotState × ℚ) :=
  let s := dctAfterMove env cfg s
  let timeSinceLastCheckedForEnemies := env.now - s.timeOfLastLookForEnemy
  let timeSinceLastMovementChange := env.now - s.timeOfLastMovementTargetChange
  let distanceToMoveLocation := distanceBetweenTargets env env.botPos s.desiredMoveLocation
  match rolePhase env cfg [] s distanceToMoveLocation timeSinceLastMovementChange with
  | none => none
  | some ws =>
    let us := universalPhase env ws.1 ws.2 lastTask timeSinceTaskChange
      timeSinceLastCheckedForEnemies
    let w :=
      if us.2.bIsHoldingFlag ∧ us.2.gsFriendlyFlagHome then
        twAddW us.1 EAIStates.MoveToTarget 9001
      else us.1
    some (w, us.2, distanceToMoveLocation)

/-- DetermineCurrentTask as a state transformer; none = a respawn branch
(Suicide + OnDied) ended the cycle. -/
def determineCurrentTask (env : Env) (cfg : BotConfig) (s : BotState) : Option BotState :=
  let lastTask := s.currentTask
  let timeSinceTaskChange := env.now - s.timeOfTaskStart
  if cfg.botType = EBotTypes.RouteRunner then
    some { s with currentTask := EAIStates.RouteRunner, recentlySeen := [] }
  else if s.bPendingWeaponFire ∧ timeSinceTaskChange < 1 then
    some { s with currentTask := EAIStates.ShootAtTarget, recentlySeen := [] }
  else
    match dctCore env cfg s lastTask timeSinceTaskChange with
    | none => none
    | some wsd =>
      let sel := dctSelect wsd.1 wsd.2.1.currentTask
      some (dctFinish env lastTask wsd.2.2 { wsd.2.1 with currentTask := sel.1 })

/-- GetWeaponAimLocation: the ForwardVector sentinel for a null target, else
the predictive lead for the inheritance-adjusted relative velocity. -/
def getWeaponAimLocation (env : Env) (target : Ptr) (projectileSpeed inheritance : ℚ)
    (randT : ℚ) : Vec3 :=
  match target with
  | none => Vec3.forwardVector
  | some id =>
    let originatingLoc := env.botPos
    let targetLoc := (env.targets id).pos
    let originatorVelocity := env.botVel
    let discVelocity := vscale inheritance originatorVelocity
    let targetVelocity := (env.targets id).vel
    let adjustedTargetVelocity := vsub targetVelocity discVelocity
    predictiveAim env originatingLoc projectileSpeed targetLoc adjustedTargetVelocity 0 randT

/-- The random draws consumed by one execution of AimAtTarget's once-per-second
skew re-roll: the two sign rolls, the projectile-property roll and draw, the
branch rolls, and the drawn pitch/yaw magnitudes for the signed and the
symmetric cases. -/
structure AimRng where
  addPitchRoll : Nat
  addYawRoll : Nat
  propRoll : Nat
  propSkewDraw : ℚ
  roll1 : Nat
  roll2 : Nat
  signedMagPitch : ℚ
  signedMagYaw : ℚ
  uniformPitch : ℚ
  uniformYaw : ℚ
deriving DecidableEq, Repr

/-- The once-per-second deliberately-imprecise aim-skew re-roll (no-op within
1s of the last re-roll). -/
def rerollAimSkew (env : Env) (cfg : BotConfig) (rng : AimRng) (s : BotState) : BotState :=
  if 1 < env.now - s.timeOfLastAimpointChange then
    let addPitch : ℚ := if rng.addPitchRoll = 0 then 1 else -1
    let addYaw : ℚ := if rng.addYawRoll = 0 then 1 else -1
    let base :=
      { s with timeOfLastAimpointChange := env.now, randomPitchSkew := 0,
               randomYawSkew := 0, randomProjectilePropertiesSkew := 1 }
    match cfg.accuracyLevel with
    | EBotAccuracyLevels.Horrible =>
      let b := { base with randomProjectilePropertiesSkew := rng.propSkewDraw }
      if rng.roll1 ≠ 0 then
        { b with randomPitchSkew := b.randomPitchSkew + rng.signedMagPitch * addPitch,
                 randomYawSkew := b.randomYawSkew + rng.signedMagYaw * addYaw }
      else
        { b with randomPitchSkew := b.randomPitchSkew + rng.uniformPitch,
                 randomYawSkew := b.randomYawSkew + rng.uniformYaw }
    | EBotAccuracyLevels.Decent =>
      let b :=
        if rng.propRoll = 0 then
          { base with randomProjectilePropertiesSkew := rng.propSkewDraw }
        else base
      if rng.roll1 ≠ 0 then
        { b with randomPitchSkew := b.randomPitchSkew + rng.signedMagPitch * addPitch,
                 randomYawSkew := b.randomYawSkew + rng.signedMagYaw * addYaw }
      else
        { b with randomPitchSkew := b.randomPitchSkew + rng.uniformPitch,
                 randomYawSkew := b.randomYawSkew + rng.uniformYaw }
    | EBotAccuracyLevels.Good =>
      let b :=
        if rng.propRoll = 0 then
          { base with randomProjectilePropertiesSkew := rng.propSkewDraw }
        else base
      if rng.roll1 = 0 then
        { b with randomPitchSkew := b.randomPitchSkew + rng.signedMagPitch * addPitch,
                 randomYawSkew := b.randomYawSkew + rng.signedMagYaw * addYaw }
      else if rng.roll2 = 0 then
        { b with randomPitchSkew := b.randomPitchSkew + rng.uniformPitch,
                 randomYawSkew := b.randomYawSkew + rng.uniformYaw }
      else b
    | EBotAccuracyLevels.Perfect => base
  else s

/-- Everything AimAtTarget computes before the ForwardVector sentinel check:
weapon projectile parameters, fire gating, the skew re-roll/clamp, and the
GetWeaponAimLocation call. -/
structure AimPre where
  st : BotState
  bIsChaingun : Bool
  bShouldFireWeapon : Bool
  aimSpot : Vec3

/-- The pre-sentinel slice of AimAtTarget for a non-null target id. -/
def aimPre (env : Env) (cfg : BotConfig) (s : BotState) (rng : AimRng)
    (fireWeapon : Bool) (randT : ℚ) (id : Nat) : AimPre :=
  let a :=
    if env.weaponIsRingLauncher then ((6500 : ℚ), (1 / 2 : ℚ), false)
    else ((0 : ℚ), (0 : ℚ), false)
  let a := if env.weaponIsChaingun then ((52500 : ℚ), (1 : ℚ), true) else a
  let projectileSpeed := a.1
  let inheritance := a.2.1
  let bIsChaingun := a.2.2
  let b0 : Bool := fireWeapon && cfg.bBotShoots
  let timeSinceLastShot := env.now - s.timeOfLastShot
  let b1 : Bool :=
    if ¬bIsChaingun then
      match cfg.accuracyLevel with
      | EBotAccuracyLevels.Horrible => if timeSinceLastShot < 6 then false else b0
      | EBotAccuracyLevels.Decent => if timeSinceLastShot < 4 then false else b0
      | EBotAccuracyLevels.Good => if timeSinceLastShot < 2 then false else b0
      | EBotAccuracyLevels.Perfect => b0
    else
      match cfg.accuracyLevel with
      | EBotAccuracyLevels.Horrible => if 1 / 10 < env.weaponHeat then false else b0
      | EBotAccuracyLevels.Decent => if 2 / 10 < env.weaponHeat then false else b0
      | EBotAccuracyLevels.Good => if 4 / 10 < env.weaponHeat then false else b0
      | EBotAccuracyLevels.Perfect => b0
  let b2 : Bool :=
    if ¬env.weaponIdle ∨ env.weaponStateTimeElapsed < env.weaponReloadTime then false else b1
  let targetLoc := (env.targets id).pos
  let thisPawnLoc := env.botPos
  let vectorToTarget := vsub targetLoc thisPawnLoc
  let _rotToTarget := env.rotFromXZ (getSafeNormal env vectorToTarget) env.botUp
  let s1 := rerollAimSkew env cfg rng s
  let s2 :=
    { s1 with randomYawSkew := clampQ s1.randomYawSkew (-80) 80,
              randomPitchSkew := clampQ s1.randomPitchSkew (-80) 80 }
  let bShouldFireWeapon : Bool := b2
  let projectileSkew : ℚ :=
    if bShouldFireWeapon then s2.randomProjectilePropertiesSkew else 1
  let aimSpot := getWeaponAimLocation env (some id) (projectileSpeed * projectileSkew)
    (inheritance * projectileSkew) randT
  ⟨s2, bIsChaingun, bShouldFireWeapon, aimSpot⟩

/-- Actuation commands issued by AimAtTarget, in order. -/
inductive AAction
  | setTrigger (b : Bool)
  | setControlRot (r : Rot)
  | setActorRot (r : Rot)
deriving DecidableEq, Repr

/-- Return value, issued actuation commands, and final state of AimAtTarget. -/
structure AimOutcome where
  ret : Bool
  actions : List AAction
  st : BotState
deriving DecidableEq, Repr

/-- FMath::Lerp on rotators (componentwise). -/
def rotLerp (a b : Rot) (alpha : ℚ) : Rot :=
  ⟨a.pitch + alpha * (b.pitch - a.pitch), a.yaw + alpha * (b.yaw - a.yaw),
    a.roll + alpha * (b.roll - a.roll)⟩

/-- AimAtTarget. -/
def aimAtTarget (env : Env) (cfg : BotConfig) (s : BotState) (rng : AimRng)
    (fireWeapon : Bool) (randT : ℚ) : AimOutcome :=
  match s.currentTarget with
  | none => ⟨false, [AAction.setTrigger false], s⟩
  | some id =>
    if (env.targets id).health = 0 ∨ ¬env.weaponExists then
      ⟨false, [AAction.setTrigger false], s⟩
    else
      let pre := aimPre env cfg s rng fireWeapon randT id
      if pre.aimSpot = Vec3.forwardVector then ⟨false, [], pre.st⟩
      else
        let aimRot := env.orientationRot pre.aimSpot
        let timeSinceLastShot := env.now - s.timeOfLastShot
        let lookPair :=
          if ¬pre.bShouldFireWeapon then
            let skewFactor := (3 - min timeSinceLastShot 3) / 3
            let a :=
              { aimRot with
                pitch := aimRot.pitch + pre.st.randomPitchSkew * skewFactor,
                yaw := aimRot.yaw + pre.st.randomYawSkew * skewFactor }
            ([AAction.setControlRot a, AAction.setActorRot { a with roll := 0, pitch := 0 }], a)
          else ([], aimRot)
        let lookActions := lookPair.1
        let aimRot2 :=
          { lookPair.2 with
            pitch := lookPair.2.pitch + pre.st.randomPitchSkew,
            yaw := lookPair.2.yaw + pre.st.randomYawSkew }
        let hitLoc := env.traceHitLoc env.botPos (vadd env.botPos pre.aimSpot)
        let distToAimSpot := distanceBetweenTargets env env.botPos pre.aimSpot
        let distToIntersect := distanceBetweenTargets env env.botPos hitLoc
        if distToAimSpot < distToIntersect - 100 then
          ⟨false, lookActions ++ [AAction.setTrigger false], pre.st⟩
        else
          if pre.bShouldFireWeapon then
            let finalAimPoint := rotLerp env.controlRotation aimRot2 (1 / 10)
            let aimAtAngle :=
              env.acosDeg (dotV (env.rotVec env.controlRotation) (env.rotVec finalAimPoint))
            let st2 := { pre.st with bPendingWeaponFire := true }
            let rotActions :=
              [AAction.setControlRot finalAimPoint,
                AAction.setActorRot { finalAimPoint with roll := 0, pitch := 0 }]
            if aimAtAngle < 5 / 100 ∨ pre.bIsChaingun then
              ⟨true, lookActions ++ rotActions ++ [AAction.setTrigger true],
                { st2 with timeOfLastShot := env.now, bPendingWeaponFire := false }⟩
            else
              ⟨true, lookActions ++ rotActions, st2⟩
          else ⟨true, lookActions, pre.st⟩

/-! ## Concrete instances used by witnesses and counterexamples -/

/-- A concrete Size() oracle; it agrees with the Euclidean norm on the
axis-aligned vectors the concrete instances use, and is nonnegative
everywhere. -/
def witnessNorm (v : Vec3) : ℚ := |v.x| + |v.y| + |v.z|

def rotZero : Rot := ⟨0, 0, 0⟩

def tdBase : TargetData :=
  { isValidObj := true, isValidLowLevel := true, nameHasLightChar := true,
    hasMesh1P := true, health := 100, timeOfDeath := 0, pos := ⟨0, 0, 0⟩,
    vel := ⟨0, 0, 0⟩, carriesObject := false }

def envBase : Env :=
  { now := 0, botPos := ⟨0, 0, 0⟩, botVel := ⟨0, 0, 0⟩, botUp := ⟨0, 0, 1⟩,
    carried := false, norm := witnessNorm, sqrtQ := fun _ => 0,
    groundZ := fun _ _ => none, targets := fun _ => tdBase, aimCanSee := true,
    wEnemyFlagLoc := ⟨0, 0, 0⟩, wEnemyFlagHome := true, wEnemyFlagHeld := false,
    wFriendlyFlagLoc := ⟨0, 0, 0⟩, wFriendlyFlagHome := true, wFriendlyFlagHeld := false,
    pcCurrentMarkerIndex := 0, pcRouteMarkerCount := 0, pcPathRecordMarkerInterval := 1,
    pcModulusLowPrecision := 1, chosenRouteMarkerCount := 0,
    chosenRouteFirstMarker := ⟨0, 0, 0⟩, chosenRouteGrabTime := 0,
    weaponExists := true, weaponIsRingLauncher := true, weaponIsChaingun := false,
    weaponHeat := 0, weaponIdle := true, weaponStateTimeElapsed := 1,
    weaponReloadTime := 0, controlRotation := rotZero,
    rotFromXZ := fun _ _ => rotZero, orientationRot := fun _ => rotZero,
    rotVec := fun _ => ⟨0, 0, 0⟩, acosDeg := fun _ => 0,
    traceHitLoc := fun _ b => b }

def cfgBase : BotConfig :=
  { botType := EBotTypes.StayAtHome, accuracyLevel := EBotAccuracyLevels.Perfect,
    bNoChaingun := false, bNoDisc := false, bBotShoots := true, routeNameCount := 0 }

def stBase : BotState :=
  { currentTask := EAIStates.LookingForEnemy, currentTarget := none,
    bPendingWeaponFire := false, routeState := EAIRouteState.NoRouteSelected,
    moveTargetType := EAIMoveTargetTypes.FriendlyStand,
    desiredMoveLocation := ⟨0, 0, 0⟩, routeStartLocation := ⟨0, 0, 0⟩,
    currentRouteGrabTime := 0, currentRouteMarkerCount := 0, bIsHoldingFlag := false,
    isTaskInitialized := false, recentlySeen := [], timeOfTaskStart := 0,
    timeOfLastLookForEnemy := 0, timeOfLastMovementTargetChange := 0,
    timeOfLastSpawn := 0, timeOfLastWeaponChange := 0, timeOfLastShot := 0,
    timeOfLastAimpointChange := 0, randomPitchSkew := 0, randomYawSkew := 0,
    randomProjectilePropertiesSkew := 1, distanceToEnemyFlag := 0,
    distanceToFriendlyFlag := 0, gsEnemyFlagLocation := ⟨0, 0, 0⟩,
    gsFriendlyFlagLocation := ⟨0, 0, 0⟩, gsEnemyFlagHome := true,
    gsFriendlyFlagHome := true, gsEnemyFlagHeld := false, gsFriendlyFlagHeld := false,
    gsFlagState := EAIFlagStates.BothFlagsHome,
    gsFriendlyStandLocation := ⟨0, 0, 0⟩, gsEnemyStandLocation := ⟨0, 0, 0⟩ }

/-! ## Theorems -/

/-- Claim C8: the gravity argument of PredictiveAim has no influence on its
result — for any two gravity values and otherwise identical inputs (including
the fallback random-time draw), the returned velocity is identical.  The
embedding is a pure function of its arguments, matching the source function,
which writes only locals. -/
theorem c8_gravity_has_no_influence (env : Env) (muzzlePosition : Vec3)
    (projectileSpeed : ℚ) (targetPosition targetVelocity : Vec3) (g g' randT : ℚ) :
    predictiveAim env muzzlePosition projectileSpeed targetPosition targetVelocity g randT =
      predictiveAim env muzzlePosition projectileSpeed targetPosition targetVelocity g' randT :=
  rfl

def envC3low : Env := { envBase with groundZ := fun _ _ => some 700 }

def envC3high : Env := { envBase with groundZ := fun _ _ => some 100 }

/-- Claim C3 (code bug): for a target 50 units above ground (ground at Z=700,
target at Z=750) the claim requires the Z coordinate to be snapped to the
ground height 700, but the code leaves the position unmodified, because it
binds GetHeightAboveGround's return value (the height ABOVE ground) to a
variable it treats as the ground height.  Conversely a target 900 units above
ground (ground at Z=100, target at Z=1000) should be left alone, but the code
rewrites its Z to 900 (the height above ground, not a ground height).  In
addition, the adjusted position is never read afterwards: the solver's result
does not depend on the ground probe at all. -/
theorem c3_snap_misuses_height_above_ground :
    (getHeightAboveGround envC3low ⟨0, 0, 750⟩ = 50 ∧ (50 : ℚ) < 600 ∧
      paSnapTargetPosition envC3low ⟨0, 0, 750⟩ = ⟨0, 0, 750⟩) ∧
    (getHeightAboveGround envC3high ⟨0, 0, 1000⟩ = 900 ∧ ¬((900 : ℚ) < 600) ∧
      paSnapTargetPosition envC3high ⟨0, 0, 1000⟩ = ⟨0, 0, 900⟩) ∧
    (∀ g g' : ℚ → ℚ → Option ℚ, ∀ m tp tv : Vec3, ∀ ps grav randT : ℚ,
      predictiveAim { envBase with groundZ := g } m ps tp tv grav randT =
        predictiveAim { envBase with groundZ := g' } m ps tp tv grav randT) := by
  refine ⟨⟨?_, by norm_num, ?_⟩, ⟨?_, by norm_num, ?_⟩, fun _ _ _ _ _ _ _ _ => rfl⟩ <;>
    norm_num [getHeightAboveGround, paSnapTargetPosition, envC3low, envC3high, envBase]

def envC5dead : Env :=
  { envBase with
    targets := fun _ => { tdBase with health := 0, timeOfDeath := 5, carriesObject := true } }

/-- Claim C5 counterexample: a dead target (health 0, recorded time of death)
that is still a valid actor with a visible mesh is NOT disqualified by
GetTargetFocusScore — it receives the strictly positive score 180, not 0.
The function's guard checks only null/invalid/meshless, never death. -/
theorem c5_dead_target_scores_positive :
    (envC5dead.targets 0).health = 0 ∧ (envC5dead.targets 0).timeOfDeath = 5 ∧
    (envC5dead.targets 0).isValidObj = true ∧ (envC5dead.targets 0).hasMesh1P = true ∧
    getTargetFocusScore envC5dead none (some 0) = 180 ∧
    getTargetFocusScore envC5dead none (some 0) ≠ 0 := by
  have h : getTargetFocusScore envC5dead none (some 0) = 180 := by
    have hne : ((some 0 : Ptr) = (none : Ptr)) = False := by simp
    norm_num [getTargetFocusScore, getTargetVelocity, getHeightAboveGround,
      distanceToTarget, distanceBetweenTargets, clampQ, witnessNorm, vsub,
      envC5dead, envBase, tdBase, hne]
  refine ⟨rfl, rfl, rfl, rfl, h, by rw [h]; norm_num⟩

def envC4 : Env :=
  { envBase with
    now := 10
    weaponIsRingLauncher := false
    targets := fun _ => { tdBase with pos := Vec3.mk 0 0 500, health := 200 } }

def cfgC4 : BotConfig := { cfgBase with bNoChaingun := true, bNoDisc := true }

def sC4 : BotState := { stBase with currentTarget := some 0 }

/-- Claim C4 counterexample: with both weapons config-disabled the two scores
tie at -100, and SelectBestWeapon's else branch switches to weapon index 2 —
the chaingun, the long-range weapon — not the short-range disc (index 0) the
claim names. -/
theorem c4_tie_selects_chaingun :
    weaponWeights envC4 cfgC4 sC4 0 = (-100, -100) ∧
    selectBestWeapon envC4 cfgC4 sC4 = some ⟨2, 0⟩ ∧
    ¬selectBestWeapon envC4 cfgC4 sC4 = some ⟨0, 0⟩ := by
  have hw : weaponWeights envC4 cfgC4 sC4 0 = (-100, -100) := by
    norm_num [weaponWeights, getTargetVelocity, getHeightAboveGround, distanceToTarget,
      distanceBetweenTargets, witnessNorm, vaddBias, vsub, envC4, cfgC4, sC4, envBase, cfgBase, stBase,
      tdBase]
  have hsel : selectBestWeapon envC4 cfgC4 sC4 = some ⟨2, 0⟩ := by
    norm_num [selectBestWeapon, weaponWeights, getTargetVelocity, getHeightAboveGround,
      distanceToTarget, distanceBetweenTargets, witnessNorm, vaddBias, vsub, isNearlyZeroQ,
      smallNumber, envC4, cfgC4, sC4, envBase, cfgBase, stBase, tdBase]
  exact ⟨hw, hsel, by rw [hsel]; simp⟩

/-- Claim C4 (amended): past the entry guard, whenever the disc score does not
exceed the chaingun score — which covers every tie, in particular the
both-disabled tie at -100 — the long-range weapon (chaingun, index 2) is
selected; negative scores follow the same greater-score rule. -/
theorem c4_ties_resolve_to_chaingun (env : Env) (cfg : BotConfig) (s : BotState)
    (id : Nat) (h1 : s.currentTarget = some id)
    (h2 : isNearlyZeroQ (env.targets id).timeOfDeath = true)
    (h3 : ¬(env.now - s.timeOfLastWeaponChange < 2))
    (h4 : (weaponWeights env cfg s id).1 ≤ (weaponWeights env cfg s id).2) :
    (selectBestWeapon env cfg s).map WeaponChoice.switchToIndex = some 2 := by
  unfold selectBestWeapon
  rw [h1]
  simp [h2, h3, not_lt.mpr h4]

/-- Witness for the amended C4 theorem at the concrete tie instance. -/
theorem c4_ties_resolve_to_chaingun_witness :
    (sC4.currentTarget = some 0 ∧ isNearlyZeroQ (envC4.targets 0).timeOfDeath = true ∧
      ¬(envC4.now - sC4.timeOfLastWeaponChange < 2) ∧
      (weaponWeights envC4 cfgC4 sC4 0).1 ≤ (weaponWeights envC4 cfgC4 sC4 0).2) ∧
    (selectBestWeapon envC4 cfgC4 sC4).map WeaponChoice.switchToIndex = some 2 := by
  have h2 : isNearlyZeroQ (envC4.targets 0).timeOfDeath = true := by
    norm_num [isNearlyZeroQ, smallNumber, envC4, envBase, tdBase]
  have h3 : ¬(envC4.now - sC4.timeOfLastWeaponChange < 2) := by
    norm_num [envC4, sC4, envBase, stBase]
  have h4 : (weaponWeights envC4 cfgC4 sC4 0).1 ≤ (weaponWeights envC4 cfgC4 sC4 0).2 := by
    have hw : weaponWeights envC4 cfgC4 sC4 0 = (-100, -100) := by
      norm_num [weaponWeights, getTargetVelocity, getHeightAboveGround, distanceToTarget,
        distanceBetweenTargets, witnessNorm, vaddBias, vsub, envC4, cfgC4, sC4, envBase, cfgBase, stBase,
        tdBase]
    rw [hw]
  exact ⟨⟨rfl, h2, h3, h4⟩, c4_ties_resolve_to_chaingun envC4 cfgC4 sC4 0 rfl h2 h3 h4⟩

/-- Claim C5 (amended): the focus score is exactly 0 for every null, invalid
or meshless target (death alone does not disqualify a target — see the
counterexample), and strictly positive for a full-health, stationary,
grounded, flag-carrying target within 100 units of the bot. -/
theorem c5_focus_score_boundary (env : Env) (ct : Ptr) (id : Nat)
    (hv : (env.targets id).isValidObj = true)
    (hll : (env.targets id).isValidLowLevel = true)
    (hm : (env.targets id).hasMesh1P = true)
    (hh : (env.targets id).health = 200)
    (hs : env.norm (env.targets id).vel = 0)
    (hg : getHeightAboveGround env (env.targets id).pos < 200)
    (hd : distanceToTarget env (some id) < 100)
    (hc : (env.targets id).carriesObject = true) :
    (∀ t : Ptr,
      (t = none ∨ ∃ j, t = some j ∧
          ((env.targets j).isValidObj = false ∨ (env.targets j).isValidLowLevel = false ∨
            (env.targets j).hasMesh1P = false)) →
      getTargetFocusScore env ct t = 0) ∧
    0 < getTargetFocusScore env ct (some id) := by
  constructor
  · rintro t (rfl | ⟨j, rfl, hbad⟩)
    · rfl
    · rcases hbad with h | h | h <;> simp [getTargetFocusScore, h]
  · have hvel : getTargetVelocity env (some id) = 0 := by
      simp [getTargetVelocity, hv, hll, hs]
    have hcl : clampQ ((10000 - distanceToTarget env (some id)) / 100) (-100) 40 = 40 := by
      have h1 : ¬((10000 - distanceToTarget env (some id)) / 100 < -100) := by linarith
      have h2 : ¬((10000 - distanceToTarget env (some id)) / 100 < 40) := by linarith
      unfold clampQ
      rw [if_neg h1, if_neg h2]
    have hnn : (0 : ℚ) ≤ if (some id : Ptr) = ct then 30 else 0 := by
      split <;> norm_num
    simp only [getTargetFocusScore, hv, hll, hm, hh, hvel, hcl, hc, Bool.not_true,
      Bool.or_self, Bool.or_false, Bool.false_or, if_pos hg, if_true, Bool.false_eq_true,
      if_false]
    linarith

def envC5W : Env :=
  { envBase with targets := fun _ => { tdBase with health := 200, carriesObject := true } }

/-- Witness for the amended C5 theorem: a full-health, stationary, grounded,
flag-carrying target at distance 0 scores strictly positive, and the
disqualification clause applies to a null target. -/
theorem c5_focus_score_boundary_witness :
    ((envC5W.targets 0).health = 200 ∧ envC5W.norm (envC5W.targets 0).vel = 0 ∧
      getHeightAboveGround envC5W (envC5W.targets 0).pos < 200 ∧
      distanceToTarget envC5W (some 0) < 100 ∧ (envC5W.targets 0).carriesObject = true) ∧
    getTargetFocusScore envC5W none none = 0 ∧
    0 < getTargetFocusScore envC5W none (some 0) := by
  have h1 : (envC5W.targets 0).health = 200 := rfl
  have h2 : envC5W.norm (envC5W.targets 0).vel = 0 := by
    norm_num [envC5W, envBase, tdBase, witnessNorm]
  have h3 : getHeightAboveGround envC5W (envC5W.targets 0).pos < 200 := by
    norm_num [envC5W, envBase, tdBase, getHeightAboveGround]
  have h4 : distanceToTarget envC5W (some 0) < 100 := by
    norm_num [envC5W, envBase, tdBase, distanceToTarget, distanceBetweenTargets,
      witnessNorm, vsub]
  have hmain := c5_focus_score_boundary envC5W none 0 rfl rfl rfl h1 h2 h3 h4 rfl
  exact ⟨⟨h1, h2, h3, h4, rfl⟩, hmain.1 none (Or.inl rfl), hmain.2⟩

/-- tmapAdd on a key that is absent appends. -/
theorem tmapAdd_of_not_mem {κ : Type} [DecidableEq κ] (l : List (κ × ℚ)) (k : κ) (v : ℚ)
    (h : k ∉ l.map Prod.fst) : tmapAdd l k v = l ++ [(k, v)] := by
  induction l with
  | nil => rfl
  | cons e rest ih =>
    simp only [List.map_cons, List.mem_cons] at h
    push_neg at h
    unfold tmapAdd
    rw [if_neg fun hk => h.1 hk.symm, ih h.2, List.cons_append]

/-- On a key-nodup list the conditional rebuild loop used by
PossibleTargetDied (and the memory prune) is a filter. -/
theorem foldl_tmapAdd_eq_filter (p : Ptr × ℚ → Prop) [DecidablePred p]
    (l : List (Ptr × ℚ)) :
    ∀ acc : List (Ptr × ℚ),
      (∀ e ∈ l, e.1 ∉ acc.map Prod.fst) →
      (l.map Prod.fst).Nodup →
      l.foldl (fun a e => if p e then tmapAdd a e.1 e.2 else a) acc =
        acc ++ l.filter (fun e => decide (p e)) := by
  induction l with
  | nil => intro acc _ _; simp
  | cons e rest ih =>
    intro acc hd hn
    simp only [List.map_cons, List.nodup_cons] at hn
    rw [List.foldl_cons]
    by_cases hp : p e
    · rw [if_pos hp,
        tmapAdd_of_not_mem acc e.1 e.2 (hd e (List.mem_cons_self e rest)), Prod.mk.eta]
      rw [ih (acc ++ [e])
        (fun e' he' => by
          simp only [List.map_append, List.mem_append, List.map_cons, List.map_nil,
            List.mem_singleton, not_or]
          exact ⟨hd e' (List.mem_cons_of_mem e he'),
            fun hfst => hn.1 (hfst ▸ List.mem_map_of_mem Prod.fst he')⟩)
        hn.2]
      simp [List.filter_cons, hp]
    · rw [if_neg hp,
        ih acc (fun e' he' => hd e' (List.mem_cons_of_mem e he')) hn.2]
      simp [List.filter_cons, hp]

/-- Claim C10: PossibleTargetDied clears the current target exactly when it
equals the dead target; the dead target and every null/invalid entry are
removed from the recently-seen map; and every other valid entry survives with
its last-seen timestamp unchanged (no entry is added or retimed). -/
theorem c10_possible_target_died (env : Env) (s : BotState) (target : Ptr)
    (hn : (s.recentlySeen.map Prod.fst).Nodup) :
    ((possibleTargetDied env s target).currentTarget =
      if s.currentTarget = target then none else s.currentTarget) ∧
    (possibleTargetDied env s target).recentlySeen =
      s.recentlySeen.filter
        (fun e => decide (e.1 ≠ none ∧ ptrIsValidObj env e.1 ∧ e.1 ≠ target)) ∧
    (∀ e ∈ s.recentlySeen, e.1 ≠ none → ptrIsValidObj env e.1 → e.1 ≠ target →
      e ∈ (possibleTargetDied env s target).recentlySeen) ∧
    (∀ e ∈ (possibleTargetDied env s target).recentlySeen,
      e.1 ≠ target ∧ e.1 ≠ none ∧ ptrIsValidObj env e.1) ∧
    (∀ e ∈ (possibleTargetDied env s target).recentlySeen, e ∈ s.recentlySeen) := by
  have hct : (possibleTargetDied env s target).currentTarget =
      if s.currentTarget = target then none else s.currentTarget := by
    unfold possibleTargetDied
    split <;> rfl
  have hfold : (possibleTargetDied env s target).recentlySeen =
      s.recentlySeen.foldl
        (fun a e =>
          if e.1 ≠ none ∧ ptrIsValidObj env e.1 ∧ e.1 ≠ target then tmapAdd a e.1 e.2
          else a)
        [] := by
    unfold possibleTargetDied
    split <;> rfl
  have hfil : (possibleTargetDied env s target).recentlySeen =
      s.recentlySeen.filter
        (fun e => decide (e.1 ≠ none ∧ ptrIsValidObj env e.1 ∧ e.1 ≠ target)) := by
    rw [hfold,
      foldl_tmapAdd_eq_filter (fun e => e.1 ≠ none ∧ ptrIsValidObj env e.1 ∧ e.1 ≠ target)
        s.recentlySeen [] (by simp) hn]
    simp
  refine ⟨hct, hfil, ?_, ?_, ?_⟩
  · intro e he h1 h2 h3
    rw [hfil]
    simp only [List.mem_filter, decide_eq_true_eq]
    exact ⟨he, h1, h2, h3⟩
  · intro e he
    rw [hfil] at he
    simp only [List.mem_filter, decide_eq_true_eq] at he
    exact ⟨he.2.2.2, he.2.1, he.2.2.1⟩
  · intro e he
    rw [hfil] at he
    exact (List.mem_filter.mp he).1

def sC10 : BotState :=
  { stBase with
    currentTarget := some 1
    recentlySeen := [(some 1, 3), (some 2, 4), (none, 5)] }

/-- Witness for C10 on a concrete three-entry memory: the dead target and the
null entry are dropped, the other valid entry survives unchanged, and the
current target (equal to the dead one) is cleared. -/
theorem c10_possible_target_died_witness :
    (sC10.recentlySeen.map Prod.fst).Nodup ∧
    (possibleTargetDied envBase sC10 (some 1)).currentTarget = none ∧
    (possibleTargetDied envBase sC10 (some 1)).recentlySeen = [(some 2, 4)] := by
  have hn : (sC10.recentlySeen.map Prod.fst).Nodup := by
    simp [sC10, stBase]
  have h := c10_possible_target_died envBase sC10 (some 1) hn
  refine ⟨hn, ?_, ?_⟩
  · rw [h.1]
    simp [sC10, stBase]
  · rw [h.2.1]
    simp [sC10, stBase, ptrIsValidObj, envBase, tdBase, List.filter]

def envC9 : Env :=
  { envBase with
    targets := fun _ => { tdBase with pos := Vec3.mk 5 0 0 }
    sqrtQ := fun q => if q = 100 then 10 else 0 }

def sC9 : BotState :=
  { stBase with
    currentTarget := some 0
    randomProjectilePropertiesSkew := 1 / 6500 }

def rngC9 : AimRng := ⟨0, 0, 0, 0, 0, 0, 0, 0, 0, 0⟩

/-- Claim C9: GetWeaponAimLocation returns the unit sentinel
FVector::ForwardVector for a null target; AimAtTarget — its only caller — on a
null current target releases the trigger and returns false without aiming, and
whenever the computed aim location equals the sentinel it returns false having
issued no actuation at all (no rotation command, no trigger pull). -/
theorem c9_sentinel_no_aim_no_fire :
    (∀ (env : Env) (ps inh randT : ℚ),
      getWeaponAimLocation env none ps inh randT = Vec3.forwardVector) ∧
    (∀ (env : Env) (cfg : BotConfig) (s : BotState) (rng : AimRng) (fire : Bool)
        (randT : ℚ), s.currentTarget = none →
      aimAtTarget env cfg s rng fire randT = ⟨false, [AAction.setTrigger false], s⟩) ∧
    (∀ (env : Env) (cfg : BotConfig) (s : BotState) (rng : AimRng) (fire : Bool)
        (randT : ℚ) (id : Nat), s.currentTarget = some id →
      (env.targets id).health ≠ 0 → env.weaponExists = true →
      (aimPre env cfg s rng fire randT id).aimSpot = Vec3.forwardVector →
      (aimAtTarget env cfg s rng fire randT).ret = false ∧
      (aimAtTarget env cfg s rng fire randT).actions = []) := by
  refine ⟨fun _ _ _ _ => rfl, ?_, ?_⟩
  · intro env cfg s rng fire randT h
    unfold aimAtTarget
    rw [h]
  · intro env cfg s rng fire randT id h hh hw hspot
    unfold aimAtTarget
    rw [h]
    simp [hh, hw, hspot]

/-- Witness for C9: a concrete environment in which PredictiveAim happens to
return exactly (1, 0, 0), so the sentinel check fires with a live target —
AimAtTarget returns false and issues no actuation; and the null-target case at
the same inputs. -/
theorem c9_sentinel_no_aim_no_fire_witness :
    (aimPre envC9 cfgBase sC9 rngC9 true 1 0).aimSpot = Vec3.forwardVector ∧
    aimAtTarget envC9 cfgBase { sC9 with currentTarget := none } rngC9 true 1 =
      ⟨false, [AAction.setTrigger false], { sC9 with currentTarget := none }⟩ ∧
    (aimAtTarget envC9 cfgBase sC9 rngC9 true 1).ret = false ∧
    (aimAtTarget envC9 cfgBase sC9 rngC9 true 1).actions = [] := by
  have hspot : (aimPre envC9 cfgBase sC9 rngC9 true 1 0).aimSpot = Vec3.forwardVector := by
    norm_num [aimPre, rerollAimSkew, getWeaponAimLocation, predictiveAim,
      predictiveAimSolve, paSnapTargetPosition, getHeightAboveGround, normalizeMember,
      getSafeNormal, sqSum, dotV, vsub, vadd, vdiv, vneg, vscale, witnessNorm,
      isNearlyEqualQ, smallNumber, clampQ, Vec3.forwardVector, Vec3.zero,
      envC9, sC9, cfgBase, envBase, stBase, tdBase]
  have hmain := c9_sentinel_no_aim_no_fire
  refine ⟨hspot, hmain.2.1 envC9 cfgBase _ rngC9 true 1 rfl, ?_⟩
  exact hmain.2.2 envC9 cfgBase sC9 rngC9 true 1 0 rfl (by norm_num [envC9, envBase, tdBase])
    rfl hspot

/-- DetermineMoveLocation leaves its own inputs (and the fields the rest of
the task-selector cycle reads from the pre-move state) untouched. -/
theorem dml_preserves_inputs (env : Env) (cfg : BotConfig) (s : BotState) :
    (determineMoveLocation env cfg s).routeState = s.routeState ∧
    (determineMoveLocation env cfg s).currentTarget = s.currentTarget ∧
    (determineMoveLocation env cfg s).routeStartLocation = s.routeStartLocation ∧
    (determineMoveLocation env cfg s).gsFriendlyStandLocation = s.gsFriendlyStandLocation ∧
    (determineMoveLocation env cfg s).gsEnemyStandLocation = s.gsEnemyStandLocation ∧
    (determineMoveLocation env cfg s).timeOfLastLookForEnemy = s.timeOfLastLookForEnemy ∧
    (determineMoveLocation env cfg s).recentlySeen = s.recentlySeen ∧
    (determineMoveLocation env cfg s).currentTask = s.currentTask ∧
    (determineMoveLocation env cfg s).isTaskInitialized = s.isTaskInitialized ∧
    (determineMoveLocation env cfg s).currentRouteGrabTime = s.currentRouteGrabTime ∧
    (determineMoveLocation env cfg s).currentRouteMarkerCount = s.currentRouteMarkerCount ∧
    (determineMoveLocation env cfg s).timeOfLastSpawn = s.timeOfLastSpawn := by
  unfold determineMoveLocation
  split
  · exact ⟨rfl, rfl, rfl, rfl, rfl, rfl, rfl, rfl, rfl, rfl, rfl, rfl⟩
  · dsimp only
    split <;> exact ⟨rfl, rfl, rfl, rfl, rfl, rfl, rfl, rfl, rfl, rfl, rfl, rfl⟩

/-- On the non-early-return path, DetermineMoveLocation's destination and type
are the core computation's outputs, with the type falling back to the incoming
one when no assignment fired. -/
theorem dml_else_char (env : Env) (cfg : BotConfig) (t : BotState)
    (hne : ¬(cfg.botType = EBotTypes.Offense ∧
      t.routeState = EAIRouteState.MovingToRouteStart)) :
    (determineMoveLocation env cfg t).desiredMoveLocation =
      (dmlFullCore env cfg t.currentTarget t.gsFriendlyStandLocation
        t.gsEnemyStandLocation).1.1 ∧
    (determineMoveLocation env cfg t).moveTargetType =
      (dmlFullCore env cfg t.currentTarget t.gsFriendlyStandLocation
        t.gsEnemyStandLocation).1.2.getD t.moveTargetType := by
  unfold determineMoveLocation
  rw [if_neg hne]
  dsimp only
  split <;> exact ⟨rfl, rfl⟩

/-- Claim C7: destination resolution is idempotent — with all inputs
unchanged, running DetermineMoveLocation a second time yields the same
DesiredMoveLocation and the same MoveTargetType as the first run. -/
theorem c7_dml_idempotent (env : Env) (cfg : BotConfig) (s : BotState) :
    (determineMoveLocation env cfg (determineMoveLocation env cfg s)).desiredMoveLocation =
      (determineMoveLocation env cfg s).desiredMoveLocation ∧
    (determineMoveLocation env cfg (determineMoveLocation env cfg s)).moveTargetType =
      (determineMoveLocation env cfg s).moveTargetType := by
  have hpre := dml_preserves_inputs env cfg s
  by_cases h : cfg.botType = EBotTypes.Offense ∧
      s.routeState = EAIRouteState.MovingToRouteStart
  · have h1 : determineMoveLocation env cfg s =
        { s with moveTargetType := EAIMoveTargetTypes.RouteStart,
                 desiredMoveLocation := s.routeStartLocation } := by
      unfold determineMoveLocation
      rw [if_pos h]
    rw [h1]
    have h2 : cfg.botType = EBotTypes.Offense ∧
        ({ s with
            moveTargetType := EAIMoveTargetTypes.RouteStart
            desiredMoveLocation := s.routeStartLocation } : BotState).routeState =
          EAIRouteState.MovingToRouteStart := ⟨h.1, h.2⟩
    unfold determineMoveLocation
    rw [if_pos h2]
    exact ⟨rfl, rfl⟩
  · have hA := dml_else_char env cfg s h
    have h2 : ¬(cfg.botType = EBotTypes.Offense ∧
        (determineMoveLocation env cfg s).routeState = EAIRouteState.MovingToRouteStart) := by
      rw [hpre.1]; exact h
    have hB := dml_else_char env cfg (determineMoveLocation env cfg s) h2
    rw [hpre.2.1, hpre.2.2.2.1, hpre.2.2.2.2.1] at hB
    rw [hB.1, hB.2, hA.1, hA.2]
    cases hcore : (dmlFullCore env cfg s.currentTarget s.gsFriendlyStandLocation
        s.gsEnemyStandLocation).1.2 <;> simp

/-- cosTheta exactly as PredictiveAim computes it. -/
def paCosTheta (env : Env) (muzzlePosition targetPosition targetVelocity : Vec3) : ℚ :=
  if 0 < env.norm targetVelocity * env.norm targetVelocity then
    dotV (normalizeMember env (vsub muzzlePosition targetPosition))
      (getSafeNormal env targetVelocity)
  else 1

/-- The quadratic coefficient a = projectileSpeed² − targetSpeed². -/
def paA (env : Env) (projectileSpeed : ℚ) (targetVelocity : Vec3) : ℚ :=
  projectileSpeed * projectileSpeed - env.norm targetVelocity * env.norm targetVelocity

/-- The quadratic coefficient b = 2·distance·targetSpeed·cosθ. -/
def paB (env : Env) (muzzlePosition targetPosition targetVelocity : Vec3) : ℚ :=
  2 * env.norm (vsub muzzlePosition targetPosition) * env.norm targetVelocity *
    paCosTheta env muzzlePosition targetPosition targetVelocity

/-- The quadratic coefficient c = −distance². -/
def paC (env : Env) (muzzlePosition targetPosition : Vec3) : ℚ :=
  -(env.norm (vsub muzzlePosition targetPosition) *
    env.norm (vsub muzzlePosition targetPosition))

/-- The discriminant b·b − 4·a·c. -/
def paDisc (env : Env) (muzzlePosition : Vec3) (projectileSpeed : ℚ)
    (targetPosition targetVelocity : Vec3) : ℚ :=
  paB env muzzlePosition targetPosition targetVelocity *
      paB env muzzlePosition targetPosition targetVelocity -
    4 * paA env projectileSpeed targetVelocity * paC env muzzlePosition targetPosition

/-- The root (−b + √disc)/(2a) as the solver computes it. -/
def paT0 (env : Env) (muzzlePosition : Vec3) (projectileSpeed : ℚ)
    (targetPosition targetVelocity : Vec3) : ℚ :=
  (1 / 2) * (-paB env muzzlePosition targetPosition targetVelocity +
      env.sqrtQ (paDisc env muzzlePosition projectileSpeed targetPosition targetVelocity)) /
    paA env projectileSpeed targetVelocity

/-- The root (−b − √disc)/(2a) as the solver computes it. -/
def paT1 (env : Env) (muzzlePosition : Vec3) (projectileSpeed : ℚ)
    (targetPosition targetVelocity : Vec3) : ℚ :=
  (1 / 2) * (-paB env muzzlePosition targetPosition targetVelocity -
      env.sqrtQ (paDisc env muzzlePosition projectileSpeed targetPosition targetVelocity)) /
    paA env projectileSpeed targetVelocity

/-- In the general (non-degenerate-speed) case the solver is exactly the
discriminant test, the tolerance-thresholded root pick, and the lead-velocity
formula, with the random-time fallback otherwise. -/
theorem predictiveAimSolve_general (env : Env) (m : Vec3) (ps : ℚ) (tp tv : Vec3)
    (grav randT : ℚ)
    (hgc : isNearlyEqualQ (ps * ps) (env.norm tv * env.norm tv) = false) :
    predictiveAimSolve env m ps tp tv grav randT =
      (if paDisc env m ps tp tv < 0 then
        ⟨false, randT,
          vscale ps (getSafeNormal env (vadd tv (vdiv (vneg (vsub m tp)) randT)))⟩
      else
        if (if min (paT0 env m ps tp tv) (paT1 env m ps tp tv) < smallNumber then
              max (paT0 env m ps tp tv) (paT1 env m ps tp tv)
            else min (paT0 env m ps tp tv) (paT1 env m ps tp tv)) < smallNumber then
          ⟨false, randT,
            vscale ps (getSafeNormal env (vadd tv (vdiv (vneg (vsub m tp)) randT)))⟩
        else
          ⟨true,
            if min (paT0 env m ps tp tv) (paT1 env m ps tp tv) < smallNumber then
              max (paT0 env m ps tp tv) (paT1 env m ps tp tv)
            else min (paT0 env m ps tp tv) (paT1 env m ps tp tv),
            vadd tv (vdiv (vneg (vsub m tp))
              (if min (paT0 env m ps tp tv) (paT1 env m ps tp tv) < smallNumber then
                max (paT0 env m ps tp tv) (paT1 env m ps tp tv)
              else min (paT0 env m ps tp tv) (paT1 env m ps tp tv)))⟩) := by
  unfold predictiveAimSolve paT0 paT1 paDisc paA paB paC paCosTheta
  simp only [hgc, Bool.false_eq_true, if_false]
  split_ifs <;> first | rfl | simp_all

/-- a ≠ 0 in the general case. -/
theorem paA_ne_zero (env : Env) (ps : ℚ) (tv : Vec3)
    (hgc : isNearlyEqualQ (ps * ps) (env.norm tv * env.norm tv) = false) :
    paA env ps tv ≠ 0 := by
  intro h0
  have h1 : ¬(|ps * ps - env.norm tv * env.norm tv| ≤ smallNumber) := by
    simpa [isNearlyEqualQ] using hgc
  apply h1
  have h2 : ps * ps - env.norm tv * env.norm tv = 0 := h0
  rw [h2]
  simp [smallNumber]

/-- Either solver root really is a root of a·t² + b·t + c when the square-root
oracle is exact on the discriminant. -/
theorem quad_root (a b c e : ℚ) (ha : a ≠ 0) (he : e ^ 2 = b * b - 4 * a * c) :
    (a * ((1 / 2) * (-b + e) / a) ^ 2 + b * ((1 / 2) * (-b + e) / a) + c = 0) ∧
    (a * ((1 / 2) * (-b - e) / a) ^ 2 + b * ((1 / 2) * (-b - e) / a) + c = 0) := by
  constructor <;>
  · field_simp
    ring_nf
    nlinarith [he]

/-- Claim C2 (amended): in the general case, with an exact square root of the
discriminant, a negative discriminant yields no valid solution; otherwise the
solver takes the smaller root when it is at least SMALL_NUMBER (1e-8), else
the larger root when that is at least SMALL_NUMBER, else no valid solution —
the thresholds are the engine tolerance, not strict positivity as the claim
says — and every valid t is a true root of a·t² + b·t + c = 0 with returned
velocity targetVelocity + shooterToTarget/t. -/
theorem c2_general_quadratic (env : Env) (m : Vec3) (ps : ℚ) (tp tv : Vec3)
    (grav randT : ℚ)
    (hgc : isNearlyEqualQ (ps * ps) (env.norm tv * env.norm tv) = false)
    (hsq : 0 ≤ paDisc env m ps tp tv →
      env.sqrtQ (paDisc env m ps tp tv) ^ 2 = paDisc env m ps tp tv) :
    (paDisc env m ps tp tv < 0 →
      (predictiveAimSolve env m ps tp tv grav randT).validSolutionFound = false) ∧
    (0 ≤ paDisc env m ps tp tv →
      (smallNumber ≤ min (paT0 env m ps tp tv) (paT1 env m ps tp tv) →
        (predictiveAimSolve env m ps tp tv grav randT).validSolutionFound = true ∧
        (predictiveAimSolve env m ps tp tv grav randT).t =
          min (paT0 env m ps tp tv) (paT1 env m ps tp tv)) ∧
      (min (paT0 env m ps tp tv) (paT1 env m ps tp tv) < smallNumber →
        smallNumber ≤ max (paT0 env m ps tp tv) (paT1 env m ps tp tv) →
        (predictiveAimSolve env m ps tp tv grav randT).validSolutionFound = true ∧
        (predictiveAimSolve env m ps tp tv grav randT).t =
          max (paT0 env m ps tp tv) (paT1 env m ps tp tv)) ∧
      (min (paT0 env m ps tp tv) (paT1 env m ps tp tv) < smallNumber →
        max (paT0 env m ps tp tv) (paT1 env m ps tp tv) < smallNumber →
        (predictiveAimSolve env m ps tp tv grav randT).validSolutionFound = false)) ∧
    ((predictiveAimSolve env m ps tp tv grav randT).validSolutionFound = true →
      paA env ps tv * (predictiveAimSolve env m ps tp tv grav randT).t ^ 2 +
          paB env m tp tv * (predictiveAimSolve env m ps tp tv grav randT).t +
          paC env m tp = 0 ∧
      (predictiveAimSolve env m ps tp tv grav randT).projectileVelocity =
        vadd tv (vdiv (vsub tp m)
          (predictiveAimSolve env m ps tp tv grav randT).t)) := by
  rw [predictiveAimSolve_general env m ps tp tv grav randT hgc]
  have hveq : vneg (vsub m tp) = vsub tp m := by
    simp [vneg, vsub, neg_sub]
  by_cases hd : paDisc env m ps tp tv < 0
  · rw [if_pos hd]
    exact ⟨fun _ => rfl, fun hge => absurd hd (not_lt.mpr hge),
      fun hv => absurd hv Bool.false_ne_true⟩
  · rw [if_neg hd]
    have hroot := quad_root (paA env ps tv) (paB env m tp tv) (paC env m tp)
      (env.sqrtQ (paDisc env m ps tp tv)) (paA_ne_zero env ps tv hgc)
      (by rw [hsq (not_lt.mp hd)]; unfold paDisc; ring)
    have ht0 : paT0 env m ps tp tv =
        (1 / 2) * (-paB env m tp tv + env.sqrtQ (paDisc env m ps tp tv)) /
          paA env ps tv := rfl
    have ht1 : paT1 env m ps tp tv =
        (1 / 2) * (-paB env m tp tv - env.sqrtQ (paDisc env m ps tp tv)) /
          paA env ps tv := rfl
    have hmem : ∀ t : ℚ, (t = paT0 env m ps tp tv ∨ t = paT1 env m ps tp tv) →
        paA env ps tv * t ^ 2 + paB env m tp tv * t + paC env m tp = 0 := by
      rintro t (rfl | rfl)
      · rw [ht0]; exact hroot.1
      · rw [ht1]; exact hroot.2
    by_cases hmin : min (paT0 env m ps tp tv) (paT1 env m ps tp tv) < smallNumber
    · rw [if_pos hmin]
      by_cases hmax : max (paT0 env m ps tp tv) (paT1 env m ps tp tv) < smallNumber
      · rw [if_pos hmax]
        exact ⟨fun _ => rfl, fun _ => ⟨fun hge => absurd hmin (not_lt.mpr hge),
          fun _ h2 => absurd hmax (not_lt.mpr h2), fun _ _ => rfl⟩,
          fun hv => absurd hv Bool.false_ne_true⟩
      · rw [if_neg hmax]
        refine ⟨fun h => absurd h hd, fun _ => ⟨fun hge => absurd hmin (not_lt.mpr hge),
          fun _ _ => ⟨rfl, rfl⟩, fun _ h2 => absurd h2 hmax⟩, fun _ => ⟨?_, ?_⟩⟩
        · exact hmem _ (max_choice _ _)
        · show vadd tv (vdiv (vneg (vsub m tp)) _) = _
          rw [hveq]
    · rw [if_neg hmin, if_neg hmin]
      refine ⟨fun h => absurd h hd, fun _ => ⟨fun _ => ⟨rfl, rfl⟩,
        fun h1 => absurd h1 hmin, fun h1 => absurd h1 hmin⟩, fun _ => ⟨?_, ?_⟩⟩
      · exact hmem _ (min_choice _ _)
      · show vadd tv (vdiv (vneg (vsub m tp)) _) = _
        rw [hveq]

/-- The C2 claim's general-case contract exactly as the spec words it: root
selection by strict POSITIVITY ("smaller positive root", "non-positive"),
with no tolerance. -/
def specC2General (env : Env) (m : Vec3) (ps : ℚ) (tp tv : Vec3) (randT : ℚ) : Prop :=
  (paDisc env m ps tp tv < 0 →
    (predictiveAimSolve env m ps tp tv 0 randT).validSolutionFound = false) ∧
  (0 ≤ paDisc env m ps tp tv →
    (0 < min (paT0 env m ps tp tv) (paT1 env m ps tp tv) →
      (predictiveAimSolve env m ps tp tv 0 randT).validSolutionFound = true ∧
      (predictiveAimSolve env m ps tp tv 0 randT).t =
        min (paT0 env m ps tp tv) (paT1 env m ps tp tv)) ∧
    (min (paT0 env m ps tp tv) (paT1 env m ps tp tv) ≤ 0 →
      0 < max (paT0 env m ps tp tv) (paT1 env m ps tp tv) →
      (predictiveAimSolve env m ps tp tv 0 randT).validSolutionFound = true ∧
      (predictiveAimSolve env m ps tp tv 0 randT).t =
        max (paT0 env m ps tp tv) (paT1 env m ps tp tv)) ∧
    (max (paT0 env m ps tp tv) (paT1 env m ps tp tv) ≤ 0 →
      (predictiveAimSolve env m ps tp tv 0 randT).validSolutionFound = false)) ∧
  ((predictiveAimSolve env m ps tp tv 0 randT).validSolutionFound = true →
    paA env ps tv * (predictiveAimSolve env m ps tp tv 0 randT).t ^ 2 +
        paB env m tp tv * (predictiveAimSolve env m ps tp tv 0 randT).t +
        paC env m tp = 0 ∧
    (predictiveAimSolve env m ps tp tv 0 randT).projectileVelocity =
      vadd tv (vdiv (vsub tp m) (predictiveAimSolve env m ps tp tv 0 randT).t))

def envC2cex : Env :=
  { envBase with sqrtQ := fun q => if q = 4 / 1000000 then 1 / 500 else 0 }

def mC2 : Vec3 := ⟨1 / 1000, 0, 0⟩

def tvC2 : Vec3 := ⟨1000000, 0, 0⟩

/-- Claim C2 counterexample: a stationary muzzle 0.001 units from a target
closing at speed 10⁶ with projectile speed 1 gives discriminant 4·10⁻⁶ ≥ 0 and
two POSITIVE roots 1/1000001000 and 1/999999000, both below SMALL_NUMBER
(10⁻⁸); the claim as stated then requires a valid solution at the smaller
positive root, but the code rejects both roots (t < SMALL_NUMBER) and falls
back, so no valid solution is found. -/
theorem c2_positive_roots_below_tolerance_rejected :
    isNearlyEqualQ (1 * 1) (envC2cex.norm tvC2 * envC2cex.norm tvC2) = false ∧
    0 ≤ paDisc envC2cex mC2 1 Vec3.zero tvC2 ∧
    0 < min (paT0 envC2cex mC2 1 Vec3.zero tvC2) (paT1 envC2cex mC2 1 Vec3.zero tvC2) ∧
    (predictiveAimSolve envC2cex mC2 1 Vec3.zero tvC2 0 1).validSolutionFound = false ∧
    ¬specC2General envC2cex mC2 1 Vec3.zero tvC2 1 := by
  have hgc : isNearlyEqualQ (1 * 1) (envC2cex.norm tvC2 * envC2cex.norm tvC2) = false := by
    norm_num [isNearlyEqualQ, smallNumber, envC2cex, envBase, witnessNorm, tvC2]
  have habs : |(1 : ℚ) / 1000| = 1 / 1000 := abs_of_pos (by norm_num)
  have hB : paB envC2cex mC2 Vec3.zero tvC2 = 2000 := by
    norm_num [paB, paCosTheta, normalizeMember, getSafeNormal, sqSum, dotV, vsub,
      vscale, witnessNorm, smallNumber, envC2cex, envBase, mC2, tvC2, Vec3.zero, habs]
  have hA : paA envC2cex 1 tvC2 = 1 - 1000000000000 := by
    norm_num [paA, witnessNorm, envC2cex, envBase, tvC2]
  have hC : paC envC2cex mC2 Vec3.zero = -(1 / 1000000) := by
    norm_num [paC, witnessNorm, envC2cex, envBase, mC2, vsub, Vec3.zero]
  have hD : paDisc envC2cex mC2 1 Vec3.zero tvC2 = 4 / 1000000 := by
    rw [paDisc, hA, hB, hC]
    norm_num
  have hsqrt : envC2cex.sqrtQ (paDisc envC2cex mC2 1 Vec3.zero tvC2) = 1 / 500 := by
    rw [hD]
    norm_num [envC2cex, envBase]
  have ht0 : paT0 envC2cex mC2 1 Vec3.zero tvC2 = 1 / 1000001000 := by
    rw [paT0, hB, hsqrt, hA]
    norm_num
  have ht1 : paT1 envC2cex mC2 1 Vec3.zero tvC2 = 1 / 999999000 := by
    rw [paT1, hB, hsqrt, hA]
    norm_num
  have hmin : min (paT0 envC2cex mC2 1 Vec3.zero tvC2) (paT1 envC2cex mC2 1 Vec3.zero tvC2)
      = 1 / 1000001000 := by
    rw [ht0, ht1]
    rw [min_eq_left (by norm_num)]
  have hmax : max (paT0 envC2cex mC2 1 Vec3.zero tvC2) (paT1 envC2cex mC2 1 Vec3.zero tvC2)
      = 1 / 999999000 := by
    rw [ht0, ht1]
    rw [max_eq_right (by norm_num)]
  have hvalid : (predictiveAimSolve envC2cex mC2 1 Vec3.zero tvC2 0 1).validSolutionFound
      = false := by
    rw [predictiveAimSolve_general envC2cex mC2 1 Vec3.zero tvC2 0 1 hgc]
    rw [if_neg (by rw [hD]; norm_num), hmin, hmax]
    rw [if_pos (by norm_num [smallNumber])]
  refine ⟨hgc, by rw [hD]; norm_num, by rw [hmin]; norm_num, hvalid, fun hs => ?_⟩
  have h2 := (hs.2.1 (by rw [hD]; norm_num)).1 (by rw [hmin]; norm_num)
  rw [hvalid] at h2
  exact Bool.false_ne_true h2.1

def envC2W : Env :=
  { envBase with sqrtQ := fun q => if q = 1000000000000 then 1000000 else 0 }

/-- Witness for the amended C2 theorem: a stationary target 1000 units away,
projectile speed 500 — discriminant 10¹², roots 2 and −2; the solver picks the
larger root 2 (the smaller is negative) and reports a valid solution. -/
theorem c2_general_quadratic_witness :
    (isNearlyEqualQ (500 * 500) (envC2W.norm Vec3.zero * envC2W.norm Vec3.zero) = false ∧
      (0 ≤ paDisc envC2W Vec3.zero 500 ⟨1000, 0, 0⟩ Vec3.zero →
        envC2W.sqrtQ (paDisc envC2W Vec3.zero 500 ⟨1000, 0, 0⟩ Vec3.zero) ^ 2 =
          paDisc envC2W Vec3.zero 500 ⟨1000, 0, 0⟩ Vec3.zero)) ∧
    (predictiveAimSolve envC2W Vec3.zero 500 ⟨1000, 0, 0⟩ Vec3.zero 0 1).validSolutionFound
        = true ∧
    (predictiveAimSolve envC2W Vec3.zero 500 ⟨1000, 0, 0⟩ Vec3.zero 0 1).t =
      max (paT0 envC2W Vec3.zero 500 ⟨1000, 0, 0⟩ Vec3.zero)
        (paT1 envC2W Vec3.zero 500 ⟨1000, 0, 0⟩ Vec3.zero) := by
  have hgc : isNearlyEqualQ (500 * 500) (envC2W.norm Vec3.zero * envC2W.norm Vec3.zero)
      = false := by
    norm_num [isNearlyEqualQ, smallNumber, envC2W, envBase, witnessNorm, Vec3.zero]
  have hB : paB envC2W Vec3.zero ⟨1000, 0, 0⟩ Vec3.zero = 0 := by
    norm_num [paB, paCosTheta, witnessNorm, envC2W, envBase, Vec3.zero]
  have hA : paA envC2W 500 Vec3.zero = 250000 := by
    norm_num [paA, witnessNorm, envC2W, envBase, Vec3.zero]
  have hC : paC envC2W Vec3.zero ⟨1000, 0, 0⟩ = -1000000 := by
    norm_num [paC, witnessNorm, envC2W, envBase, vsub, Vec3.zero]
  have hD : paDisc envC2W Vec3.zero 500 ⟨1000, 0, 0⟩ Vec3.zero = 1000000000000 := by
    rw [paDisc, hA, hB, hC]
    norm_num
  have hsq : 0 ≤ paDisc envC2W Vec3.zero 500 ⟨1000, 0, 0⟩ Vec3.zero →
      envC2W.sqrtQ (paDisc envC2W Vec3.zero 500 ⟨1000, 0, 0⟩ Vec3.zero) ^ 2 =
        paDisc envC2W Vec3.zero 500 ⟨1000, 0, 0⟩ Vec3.zero := by
    intro _
    rw [hD]
    norm_num [envC2W, envBase]
  have hsqrt : envC2W.sqrtQ (paDisc envC2W Vec3.zero 500 ⟨1000, 0, 0⟩ Vec3.zero)
      = 1000000 := by
    rw [hD]
    norm_num [envC2W, envBase]
  have ht0 : paT0 envC2W Vec3.zero 500 ⟨1000, 0, 0⟩ Vec3.zero = 2 := by
    rw [paT0, hB, hsqrt, hA]
    norm_num
  have ht1 : paT1 envC2W Vec3.zero 500 ⟨1000, 0, 0⟩ Vec3.zero = -2 := by
    rw [paT1, hB, hsqrt, hA]
    norm_num
  have hmain := c2_general_quadratic envC2W Vec3.zero 500 ⟨1000, 0, 0⟩ Vec3.zero 0 1 hgc hsq
  have hres := (hmain.2.1 (by rw [hD]; norm_num)).2.1
    (by rw [ht0, ht1]; rw [min_eq_right (by norm_num)]; norm_num [smallNumber])
    (by rw [ht0, ht1]; rw [max_eq_left (by norm_num)]; norm_num [smallNumber])
  exact ⟨⟨hgc, hsq⟩, hres.1, hres.2⟩

/-! ## Lemmas about the TaskWeights map and the selection loop -/

/-- Membership after a TMap::Add. -/
theorem mem_tmapAdd {κ : Type} [DecidableEq κ] (l : List (κ × ℚ)) (k : κ) (v : ℚ)
    (p : κ × ℚ) (hp : p ∈ tmapAdd l k v) : p = (k, v) ∨ p ∈ l := by
  induction l with
  | nil => simpa [tmapAdd] using hp
  | cons e rest ih =>
    by_cases he : e.1 = k
    · simp only [tmapAdd, if_pos he] at hp
      rcases List.mem_cons.mp hp with h | h
      · exact Or.inl h
      · exact Or.inr (List.mem_cons_of_mem e h)
    · simp only [tmapAdd, if_neg he] at hp
      rcases List.mem_cons.mp hp with h | h
      · exact Or.inr (h ▸ List.mem_cons_self e rest)
      · rcases ih h with h2 | h2
        · exact Or.inl h2
        · exact Or.inr (List.mem_cons_of_mem e h2)

/-- The added pair is always a member of the result. -/
theorem self_mem_tmapAdd {κ : Type} [DecidableEq κ] (l : List (κ × ℚ)) (k : κ) (v : ℚ) :
    (k, v) ∈ tmapAdd l k v := by
  induction l with
  | nil => simp [tmapAdd]
  | cons e rest ih =>
    by_cases he : e.1 = k
    · simp [tmapAdd, if_pos he]
    · simp only [tmapAdd, if_neg he]
      exact List.mem_cons_of_mem e ih

/-- Lookup of the TaskWeights assoc list, first occurrence. -/
def twGet (w : TaskWeights) (k : EAIStates) : Option ℚ :=
  match w with
  | [] => none
  | e :: r => if e.1 = k then some e.2 else twGet r k

/-- Lookup after adding the same key. -/
theorem twGet_twAddW_self (w : TaskWeights) (k : EAIStates) (v : ℚ) :
    twGet (twAddW w k v) k = some v := by
  induction w with
  | nil => simp [twAddW, tmapAdd, twGet]
  | cons e rest ih =>
    by_cases he : e.1 = k
    · simp [twAddW, tmapAdd, if_pos he, twGet]
    · simp only [twAddW, tmapAdd, if_neg he, twGet]
      exact ih

/-- Lookup after adding a different key. -/
theorem twGet_twAddW_other (w : TaskWeights) (k k2 : EAIStates) (v : ℚ) (h : k2 ≠ k) :
    twGet (twAddW w k2 v) k = twGet w k := by
  induction w with
  | nil => simp [twAddW, tmapAdd, twGet, h]
  | cons e rest ih =>
    by_cases he : e.1 = k2
    · simp only [twAddW, tmapAdd, if_pos he, twGet]
      rw [if_neg h, if_neg (he ▸ h)]
    · simp only [twAddW, tmapAdd, if_neg he, twGet]
      by_cases he2 : e.1 = k
      · rw [if_pos he2, if_pos he2]
      · rw [if_neg he2, if_neg he2]
        exact ih

/-- All candidate weights strictly below the override weight. -/
def wb (w : TaskWeights) : Prop := ∀ p ∈ w, p.2 < 9001

theorem wb_nil : wb [] := by
  intro p hp
  simp at hp

theorem wb_add (w : TaskWeights) (k : EAIStates) (v : ℚ) (hw : wb w) (hv : v < 9001) :
    wb (twAddW w k v) := by
  intro p hp
  rcases mem_tmapAdd w k v p hp with rfl | hp2
  · exact hv
  · exact hw p hp2

/-- FMath::Clamp is bounded by its upper bound when the bounds are ordered. -/
theorem clampQ_le (x lo hi : ℚ) (h : lo ≤ hi) : clampQ x lo hi ≤ hi := by
  unfold clampQ
  split_ifs <;> linarith

/-- The selection fold commits to the unique dominant entry: if (MoveToTarget,
9001) is in the map, no other task reaches 9001, and nothing exceeds it, the
strict-improvement loop ends on (MoveToTarget, 9001) whatever the default and
whatever the iteration order. -/
theorem dctSelect_aux (w : TaskWeights) :
    ∀ acc : EAIStates × ℚ,
      (∀ p ∈ w, p.1 ≠ EAIStates.MoveToTarget → p.2 < 9001) →
      (∀ p ∈ w, p.2 ≤ 9001) →
      ((acc.1 = EAIStates.MoveToTarget ∧ acc.2 = 9001) ∨
        (acc.2 < 9001 ∧ (EAIStates.MoveToTarget, (9001 : ℚ)) ∈ w)) →
      (w.foldl (fun acc e => if acc.2 < e.2 then (e.1, e.2) else acc) acc).1 =
          EAIStates.MoveToTarget ∧
        (w.foldl (fun acc e => if acc.2 < e.2 then (e.1, e.2) else acc) acc).2 = 9001 := by
  induction w with
  | nil =>
    intro acc _ _ hinv
    rcases hinv with ⟨h1, h2⟩ | ⟨_, hmem⟩
    · exact ⟨h1, h2⟩
    · simp at hmem
  | cons e rest ih =>
    intro acc hnon hle hinv
    rw [List.foldl_cons]
    rcases hinv with ⟨h1, h2⟩ | ⟨hlt, hmem⟩
    · have hnotlt : ¬(acc.2 < e.2) := by
        rw [h2]
        exact not_lt.mpr (hle e (List.mem_cons_self e rest))
      rw [if_neg hnotlt]
      exact ih acc (fun p hp h => hnon p (List.mem_cons_of_mem e hp) h)
        (fun p hp => hle p (List.mem_cons_of_mem e hp)) (Or.inl ⟨h1, h2⟩)
    · rcases List.mem_cons.mp hmem with he | hrest
      · have he2 : e.2 = 9001 := by rw [← he]
        have he1 : e.1 = EAIStates.MoveToTarget := by rw [← he]
        rw [if_pos (by rw [he2]; exact hlt)]
        exact ih (e.1, e.2) (fun p hp h => hnon p (List.mem_cons_of_mem e hp) h)
          (fun p hp => hle p (List.mem_cons_of_mem e hp)) (Or.inl ⟨he1, he2⟩)
      · by_cases hstep : acc.2 < e.2
        · rw [if_pos hstep]
          by_cases hemt : e.1 = EAIStates.MoveToTarget
          · rcases lt_or_eq_of_le (hle e (List.mem_cons_self e rest)) with h9 | h9
            · exact ih (e.1, e.2) (fun p hp h => hnon p (List.mem_cons_of_mem e hp) h)
                (fun p hp => hle p (List.mem_cons_of_mem e hp)) (Or.inr ⟨h9, hrest⟩)
            · exact ih (e.1, e.2) (fun p hp h => hnon p (List.mem_cons_of_mem e hp) h)
                (fun p hp => hle p (List.mem_cons_of_mem e hp)) (Or.inl ⟨hemt, h9⟩)
          · exact ih (e.1, e.2) (fun p hp h => hnon p (List.mem_cons_of_mem e hp) h)
              (fun p hp => hle p (List.mem_cons_of_mem e hp))
              (Or.inr ⟨hnon e (List.mem_cons_self e rest) hemt, hrest⟩)
        · rw [if_neg hstep]
          exact ih acc (fun p hp h => hnon p (List.mem_cons_of_mem e hp) h)
            (fun p hp => hle p (List.mem_cons_of_mem e hp)) (Or.inr ⟨hlt, hrest⟩)

/-- The selection loop on a map whose MoveToTarget entry dominates. -/
theorem dctSelect_dominant (w : TaskWeights) (d : EAIStates)
    (hmem : (EAIStates.MoveToTarget, (9001 : ℚ)) ∈ w)
    (hnon : ∀ p ∈ w, p.1 ≠ EAIStates.MoveToTarget → p.2 < 9001)
    (hle : ∀ p ∈ w, p.2 ≤ 9001) :
    (dctSelect w d).1 = EAIStates.MoveToTarget := by
  exact (dctSelect_aux w (d, 0) hnon hle (Or.inr ⟨by norm_num, hmem⟩)).1

/-! ## Focus-score bounds -/

/-- Environment sanity: healths and speed norms are nonnegative. -/
def EnvWF (env : Env) : Prop :=
  ∀ id, 0 ≤ (env.targets id).health ∧ 0 ≤ env.norm (env.targets id).vel

theorem getTargetVelocity_nonneg (env : Env) (t : Ptr) (hwf : EnvWF env) :
    0 ≤ getTargetVelocity env t := by
  cases t with
  | none => simp [getTargetVelocity]
  | some id =>
    simp only [getTargetVelocity]
    split_ifs
    · norm_num
    · exact mul_nonneg (hwf id).2 (by norm_num)

/-- The additive focus score never exceeds 210 in a sane environment. -/
theorem getTargetFocusScore_le (env : Env) (ct t : Ptr) (hwf : EnvWF env) :
    getTargetFocusScore env ct t ≤ 210 := by
  cases t with
  | none => norm_num [getTargetFocusScore]
  | some id =>
    unfold getTargetFocusScore
    dsimp only
    split
    · norm_num
    · have hh := (hwf id).1
      have hv := getTargetVelocity_nonneg env (some id) hwf
      have hcl : clampQ ((10000 - distanceToTarget env (some id)) / 100) (-100) 40 ≤ 40 :=
        clampQ_le _ _ _ (by norm_num)
      split_ifs <;> linarith

/-- The focus-maximization fold stays bounded by 210. -/
theorem focusPick_le_aux (env : Env) (ct : Ptr) (hwf : EnvWF env)
    (l : List (Ptr × ℚ)) :
    ∀ acc : Ptr × ℚ, acc.2 ≤ 210 →
      (l.foldl
        (fun acc e =>
          let f := getTargetFocusScore env ct e.1
          if acc.2 < f then (e.1, f) else acc)
        acc).2 ≤ 210 := by
  induction l with
  | nil => intro acc h; simpa using h
  | cons e rest ih =>
    intro acc h
    rw [List.foldl_cons]
    dsimp only
    by_cases hlt : acc.2 < getTargetFocusScore env ct e.1
    · rw [if_pos hlt]
      exact ih _ (getTargetFocusScore_le env ct e.1 hwf)
    · rw [if_neg hlt]
      exact ih _ h

theorem focusPick_le (env : Env) (ct : Ptr) (l : List (Ptr × ℚ)) (hwf : EnvWF env) :
    (focusPick env ct l).2 ≤ 210 :=
  focusPick_le_aux env ct hwf l (ct, 0) (by norm_num)

/-! ## DetermineCurrentTask pipeline lemmas -/

/-- A clamped value stays below the override weight when its upper bound does. -/
theorem clampQ_lt_big (x lo hi : ℚ) (hlo : lo ≤ hi) (hhi : hi < 9001) :
    clampQ x lo hi < 9001 :=
  lt_of_le_of_lt (clampQ_le x lo hi hlo) hhi

/-- DetermineRouteToRun writes only the route bookkeeping fields. -/
theorem determineRouteToRun_proj (env : Env) (cfg : BotConfig) (s : BotState) :
    (determineRouteToRun env cfg s).currentTask = s.currentTask ∧
    (determineRouteToRun env cfg s).currentTarget = s.currentTarget ∧
    (determineRouteToRun env cfg s).recentlySeen = s.recentlySeen ∧
    (determineRouteToRun env cfg s).timeOfLastLookForEnemy = s.timeOfLastLookForEnemy ∧
    (determineRouteToRun env cfg s).bIsHoldingFlag = s.bIsHoldingFlag ∧
    (determineRouteToRun env cfg s).gsFriendlyFlagHome = s.gsFriendlyFlagHome ∧
    (determineRouteToRun env cfg s).gsEnemyFlagHome = s.gsEnemyFlagHome ∧
    (determineRouteToRun env cfg s).moveTargetType = s.moveTargetType := by
  unfold determineRouteToRun
  dsimp only
  split_ifs <;> exact ⟨rfl, rfl, rfl, rfl, rfl, rfl, rfl, rfl⟩

/-- The route-selection stage writes only the route bookkeeping fields. -/
theorem dctRouteStage_proj (env : Env) (cfg : BotConfig) (s : BotState) :
    (dctRouteStage env cfg s).currentTask = s.currentTask ∧
    (dctRouteStage env cfg s).currentTarget = s.currentTarget ∧
    (dctRouteStage env cfg s).recentlySeen = s.recentlySeen ∧
    (dctRouteStage env cfg s).timeOfLastLookForEnemy = s.timeOfLastLookForEnemy ∧
    (dctRouteStage env cfg s).bIsHoldingFlag = s.bIsHoldingFlag ∧
    (dctRouteStage env cfg s).gsFriendlyFlagHome = s.gsFriendlyFlagHome ∧
    (dctRouteStage env cfg s).gsEnemyFlagHome = s.gsEnemyFlagHome ∧
    (dctRouteStage env cfg s).moveTargetType = s.moveTargetType := by
  unfold dctRouteStage
  split_ifs with h
  · exact determineRouteToRun_proj env cfg s
  · exact ⟨rfl, rfl, rfl, rfl, rfl, rfl, rfl, rfl⟩

/-- The prune writes only the current target. -/
theorem dctPruneTarget_proj (env : Env) (s : BotState) :
    (dctPruneTarget env s).currentTask = s.currentTask ∧
    (dctPruneTarget env s).recentlySeen = s.recentlySeen ∧
    (dctPruneTarget env s).timeOfLastLookForEnemy = s.timeOfLastLookForEnemy ∧
    (dctPruneTarget env s).bIsHoldingFlag = s.bIsHoldingFlag ∧
    (dctPruneTarget env s).gsFriendlyFlagHome = s.gsFriendlyFlagHome ∧
    (dctPruneTarget env s).gsEnemyFlagHome = s.gsEnemyFlagHome ∧
    (dctPruneTarget env s).moveTargetType = s.moveTargetType := by
  unfold dctPruneTarget
  split_ifs <;> exact ⟨rfl, rfl, rfl, rfl, rfl, rfl, rfl⟩

/-- The prune keeps a null current target null. -/
theorem dctPruneTarget_none (env : Env) (s : BotState) (h : s.currentTarget = none) :
    (dctPruneTarget env s).currentTarget = none := by
  unfold dctPruneTarget
  split_ifs <;> first | rfl | exact h

/-- The GameState snapshot written by the destination core mirrors the world
flags. -/
theorem dmlFullCore_gs (env : Env) (cfg : BotConfig) (ct : Ptr) (fs es : Vec3) :
    (dmlFullCore env cfg ct fs es).2.bIsHoldingFlag = env.carried ∧
    (dmlFullCore env cfg ct fs es).2.gsFriendlyFlagHome = env.wFriendlyFlagHome ∧
    (dmlFullCore env cfg ct fs es).2.gsEnemyFlagHome = env.wEnemyFlagHome :=
  ⟨rfl, rfl, rfl⟩

/-- On the non-early path, the held/home flags written by DetermineMoveLocation
are the world's. -/
theorem dml_else_gs (env : Env) (cfg : BotConfig) (t : BotState)
    (hne : ¬(cfg.botType = EBotTypes.Offense ∧
      t.routeState = EAIRouteState.MovingToRouteStart)) :
    (determineMoveLocation env cfg t).bIsHoldingFlag = env.carried ∧
    (determineMoveLocation env cfg t).gsFriendlyFlagHome = env.wFriendlyFlagHome ∧
    (determineMoveLocation env cfg t).gsEnemyFlagHome = env.wEnemyFlagHome := by
  unfold determineMoveLocation
  rw [if_neg hne]
  dsimp only
  split <;>
    exact ⟨(dmlFullCore_gs env cfg t.currentTarget t.gsFriendlyStandLocation
        t.gsEnemyStandLocation).1,
      (dmlFullCore_gs env cfg t.currentTarget t.gsFriendlyStandLocation
        t.gsEnemyStandLocation).2.1,
      (dmlFullCore_gs env cfg t.currentTarget t.gsFriendlyStandLocation
        t.gsEnemyStandLocation).2.2⟩

/-- On the early route-start path, the type is RouteStart and the flag fields
are untouched. -/
theorem dml_early_proj (env : Env) (cfg : BotConfig) (t : BotState)
    (h : cfg.botType = EBotTypes.Offense ∧
      t.routeState = EAIRouteState.MovingToRouteStart) :
    (determineMoveLocation env cfg t).moveTargetType = EAIMoveTargetTypes.RouteStart ∧
    (determineMoveLocation env cfg t).bIsHoldingFlag = t.bIsHoldingFlag ∧
    (determineMoveLocation env cfg t).gsFriendlyFlagHome = t.gsFriendlyFlagHome ∧
    (determineMoveLocation env cfg t).gsEnemyFlagHome = t.gsEnemyFlagHome := by
  unfold determineMoveLocation
  rw [if_pos h]
  exact ⟨rfl, rfl, rfl, rfl⟩

/-- While the bot carries the flag and the friendly flag is home, the final
destination override commits to the friendly stand. -/
theorem dmlFullCore_holding (env : Env) (cfg : BotConfig) (ct : Ptr) (fs es : Vec3)
    (hc : env.carried = true) (hh : env.wFriendlyFlagHome = true) :
    (dmlFullCore env cfg ct fs es).1 = (fs, some EAIMoveTargetTypes.FriendlyStand) := by
  unfold dmlFullCore
  dsimp only
  rw [if_pos (show env.carried = true ∧ env.wFriendlyFlagHome = true from ⟨hc, hh⟩)]

/-- A state that leaves DetermineMoveLocation holding the flag with the
friendly flag home has move-target type FriendlyStand, or RouteStart on the
early path. -/
theorem dml_shape (env : Env) (cfg : BotConfig) (t : BotState)
    (hb : (determineMoveLocation env cfg t).bIsHoldingFlag = true)
    (hh : (determineMoveLocation env cfg t).gsFriendlyFlagHome = true) :
    (determineMoveLocation env cfg t).moveTargetType = EAIMoveTargetTypes.FriendlyStand ∨
    (determineMoveLocation env cfg t).moveTargetType = EAIMoveTargetTypes.RouteStart := by
  by_cases h : cfg.botType = EBotTypes.Offense ∧
      t.routeState = EAIRouteState.MovingToRouteStart
  · exact Or.inr (dml_early_proj env cfg t h).1
  · have hgs := dml_else_gs env cfg t h
    have hc : env.carried = true := by rw [← hgs.1]; exact hb
    have hfh : env.wFriendlyFlagHome = true := by rw [← hgs.2.1]; exact hh
    have hch := dml_else_char env cfg t h
    rw [hch.2, dmlFullCore_holding env cfg t.currentTarget t.gsFriendlyStandLocation
      t.gsEnemyStandLocation hc hfh]
    exact Or.inl rfl

/-- The cycle front half fixes the task to LookingForEnemy and keeps the
memory and the look timestamp. -/
theorem dctAfterMove_proj (env : Env) (cfg : BotConfig) (s : BotState) :
    (dctAfterMove env cfg s).currentTask = EAIStates.LookingForEnemy ∧
    (dctAfterMove env cfg s).recentlySeen = s.recentlySeen ∧
    (dctAfterMove env cfg s).timeOfLastLookForEnemy = s.timeOfLastLookForEnemy := by
  unfold dctAfterMove
  have h1 := dctPruneTarget_proj env (determineMoveLocation env cfg
    (dctRouteStage env cfg { s with currentTask := EAIStates.LookingForEnemy }))
  have h2 := dml_preserves_inputs env cfg
    (dctRouteStage env cfg { s with currentTask := EAIStates.LookingForEnemy })
  have h3 := dctRouteStage_proj env cfg { s with currentTask := EAIStates.LookingForEnemy }
  refine ⟨?_, ?_, ?_⟩
  · rw [h1.1, h2.2.2.2.2.2.2.2.1, h3.1]
  · rw [h1.2.1, h2.2.2.2.2.2.2.1, h3.2.2.1]
  · rw [h1.2.2.1, h2.2.2.2.2.2.1, h3.2.2.2.1]

/-- The cycle front half keeps a null current target null. -/
theorem dctAfterMove_target_none (env : Env) (cfg : BotConfig) (s : BotState)
    (h : s.currentTarget = none) :
    (dctAfterMove env cfg s).currentTarget = none := by
  unfold dctAfterMove
  apply dctPruneTarget_none
  rw [(dml_preserves_inputs env cfg _).2.1, (dctRouteStage_proj env cfg _).2.1]
  exact h

/-- After the front half, holding-with-friendly-flag-home forces the move
target type to FriendlyStand (or RouteStart on the early route path). -/
theorem dctAfterMove_shape (env : Env) (cfg : BotConfig) (s : BotState)
    (hb : (dctAfterMove env cfg s).bIsHoldingFlag = true)
    (hh : (dctAfterMove env cfg s).gsFriendlyFlagHome = true) :
    (dctAfterMove env cfg s).moveTargetType = EAIMoveTargetTypes.FriendlyStand ∨
    (dctAfterMove env cfg s).moveTargetType = EAIMoveTargetTypes.RouteStart := by
  unfold dctAfterMove at *
  have hp := dctPruneTarget_proj env (determineMoveLocation env cfg
    (dctRouteStage env cfg { s with currentTask := EAIStates.LookingForEnemy }))
  rw [hp.2.2.2.1] at hb
  rw [hp.2.2.2.2.1] at hh
  rw [hp.2.2.2.2.2.2]
  exact dml_shape env cfg _ hb hh

/-- The Offense AbandonedRoute tail never rewrites the state. -/
theorem offenseAbandonedStage_proj (env : Env) (w : TaskWeights) (s : BotState)
    (d : ℚ) (r : TaskWeights × BotState)
    (h : offenseAbandonedStage env w s d = some r) : r.2 = s := by
  unfold offenseAbandonedStage at h
  repeat' split at h
  all_goals first
    | exact Option.noConfusion h
    | (injection h with h1; rw [← h1])

/-- The Offense AbandonedRoute tail keeps the weights bounded. -/
theorem offenseAbandonedStage_wb (env : Env) (w : TaskWeights) (s : BotState)
    (d : ℚ) (r : TaskWeights × BotState) (hw : wb w)
    (h : offenseAbandonedStage env w s d = some r) : wb r.1 := by
  unfold offenseAbandonedStage at h
  repeat' split at h
  all_goals first
    | exact Option.noConfusion h
    | (injection h with h1; rw [← h1]; exact wb_add _ _ _ hw (by norm_num))
    | (injection h with h1; rw [← h1]; exact hw)

/-- The route-start stage touches none of the target/flag/destination
fields. -/
theorem offenseRouteStartStage_proj (w : TaskWeights) (s : BotState) (d t : ℚ) :
    (offenseRouteStartStage w s d t).2.bIsHoldingFlag = s.bIsHoldingFlag ∧
    (offenseRouteStartStage w s d t).2.gsFriendlyFlagHome = s.gsFriendlyFlagHome ∧
    (offenseRouteStartStage w s d t).2.gsEnemyFlagHome = s.gsEnemyFlagHome ∧
    (offenseRouteStartStage w s d t).2.moveTargetType = s.moveTargetType ∧
    (offenseRouteStartStage w s d t).2.recentlySeen = s.recentlySeen ∧
    (offenseRouteStartStage w s d t).2.currentTarget = s.currentTarget ∧
    (offenseRouteStartStage w s d t).2.timeOfLastLookForEnemy = s.timeOfLastLookForEnemy := by
  unfold offenseRouteStartStage startRouteFollow
  split_ifs <;> exact ⟨rfl, rfl, rfl, rfl, rfl, rfl, rfl⟩

/-- The running-route stage touches none of the target/flag/destination
fields. -/
theorem offenseRunningStage_proj (env : Env) (w : TaskWeights) (s : BotState) :
    (offenseRunningStage env w s).2.bIsHoldingFlag = s.bIsHoldingFlag ∧
    (offenseRunningStage env w s).2.gsFriendlyFlagHome = s.gsFriendlyFlagHome ∧
    (offenseRunningStage env w s).2.gsEnemyFlagHome = s.gsEnemyFlagHome ∧
    (offenseRunningStage env w s).2.moveTargetType = s.moveTargetType ∧
    (offenseRunningStage env w s).2.recentlySeen = s.recentlySeen ∧
    (offenseRunningStage env w s).2.currentTarget = s.currentTarget ∧
    (offenseRunningStage env w s).2.timeOfLastLookForEnemy = s.timeOfLastLookForEnemy := by
  unfold offenseRunningStage
  dsimp only
  split_ifs <;> exact ⟨rfl, rfl, rfl, rfl, rfl, rfl, rfl⟩

/-- The route-finished stage never rewrites the state. -/
theorem offenseFinishedStage_proj (env : Env) (w : TaskWeights) (s : BotState)
    (d : ℚ) (r : TaskWeights × BotState)
    (h : offenseFinishedStage env w s d = some r) : r.2 = s := by
  unfold offenseFinishedStage at h
  repeat' split at h
  all_goals first
    | exact Option.noConfusion h
    | exact offenseAbandonedStage_proj _ _ _ _ _ h

/-- The route-start stage keeps the weights bounded. -/
theorem offenseRouteStartStage_wb (w : TaskWeights) (s : BotState) (d t : ℚ)
    (hw : wb w) : wb (offenseRouteStartStage w s d t).1 := by
  unfold offenseRouteStartStage
  split_ifs
  all_goals first
    | exact hw
    | exact wb_add _ _ _ hw (by norm_num)

/-- The running-route stage keeps the weights bounded. -/
theorem offenseRunningStage_wb (env : Env) (w : TaskWeights) (s : BotState)
    (hw : wb w) : wb (offenseRunningStage env w s).1 := by
  unfold offenseRunningStage
  dsimp only
  split_ifs
  all_goals first
    | exact hw
    | exact wb_add _ _ _ hw (by norm_num)

/-- The route-finished stage keeps the weights bounded. -/
theorem offenseFinishedStage_wb (env : Env) (w : TaskWeights) (s : BotState)
    (d : ℚ) (r : TaskWeights × BotState) (hw : wb w)
    (h : offenseFinishedStage env w s d = some r) : wb r.1 := by
  unfold offenseFinishedStage at h
  repeat' split at h
  all_goals first
    | exact Option.noConfusion h
    | exact offenseAbandonedStage_wb _ _ _ _ _ hw h
    | exact offenseAbandonedStage_wb _ _ _ _ _
        (wb_add _ _ _ hw (by first
          | exact clampQ_lt_big _ _ _ (by norm_num) (by norm_num)
          | norm_num)) h

/-- The Offense weighting block touches none of the target/flag/destination
fields. -/
theorem offensePhase_proj (env : Env) (w : TaskWeights) (s : BotState) (d t : ℚ)
    (r : TaskWeights × BotState) (h : offensePhase env w s d t = some r) :
    r.2.bIsHoldingFlag = s.bIsHoldingFlag ∧
    r.2.gsFriendlyFlagHome = s.gsFriendlyFlagHome ∧
    r.2.gsEnemyFlagHome = s.gsEnemyFlagHome ∧
    r.2.moveTargetType = s.moveTargetType ∧
    r.2.recentlySeen = s.recentlySeen ∧
    r.2.currentTarget = s.currentTarget ∧
    r.2.timeOfLastLookForEnemy = s.timeOfLastLookForEnemy := by
  unfold offensePhase at h
  dsimp only at h
  rw [offenseFinishedStage_proj _ _ _ _ _ h]
  have h2 := offenseRunningStage_proj env (offenseRouteStartStage w s d t).1
    (offenseRouteStartStage w s d t).2
  have h1 := offenseRouteStartStage_proj w s d t
  exact ⟨h2.1.trans h1.1, h2.2.1.trans h1.2.1, h2.2.2.1.trans h1.2.2.1,
    h2.2.2.2.1.trans h1.2.2.2.1, h2.2.2.2.2.1.trans h1.2.2.2.2.1,
    h2.2.2.2.2.2.1.trans h1.2.2.2.2.2.1, h2.2.2.2.2.2.2.trans h1.2.2.2.2.2.2⟩

/-- The Offense weighting block keeps the weights bounded. -/
theorem offensePhase_wb (env : Env) (w : TaskWeights) (s : BotState) (d t : ℚ)
    (r : TaskWeights × BotState) (hw : wb w) (h : offensePhase env w s d t = some r) :
    wb r.1 := by
  unfold offensePhase at h
  dsimp only at h
  exact offenseFinishedStage_wb _ _ _ _ _
    (offenseRunningStage_wb env _ _ (offenseRouteStartStage_wb w s d t hw)) h

/-- The Chase weighting block never rewrites the state and keeps the weights
bounded. -/
theorem chasePhase_char (w : TaskWeights) (s : BotState) (d : ℚ)
    (r : TaskWeights × BotState) (hw : wb w) (h : chasePhase w s d = some r) :
    r.2 = s ∧ wb r.1 := by
  unfold chasePhase at h
  repeat' split at h
  all_goals first
    | exact Option.noConfusion h
    | (injection h with h1
       rw [← h1]
       refine ⟨rfl, ?_⟩
       first
         | exact hw
         | exact wb_add _ _ _ hw (by first
             | exact clampQ_lt_big _ _ _ (by norm_num) (by norm_num)
             | norm_num))

/-- The LO weighting block keeps the weights bounded. -/
theorem loPhase_wb (w : TaskWeights) (s : BotState) (d : ℚ) (hw : wb w) :
    wb (loPhase w s d) := by
  unfold loPhase
  split_ifs
  all_goals
    exact wb_add _ _ _ hw (by first
      | exact clampQ_lt_big _ _ _ (by norm_num) (by norm_num)
      | norm_num)

/-- The StayAtHome weighting block keeps the weights bounded. -/
theorem sahPhase_wb (w : TaskWeights) (s : BotState) (d : ℚ) (hw : wb w) :
    wb (sahPhase w s d) := by
  unfold sahPhase
  split_ifs
  all_goals first
    | exact wb_add _ _ _
        (wb_add _ _ _ hw (clampQ_lt_big _ _ _ (by norm_num) (by norm_num))) (by norm_num)
    | exact wb_add _ _ _ hw (clampQ_lt_big _ _ _ (by norm_num) (by norm_num))

/-- Every role block keeps the weights bounded and leaves the target, memory,
flag and destination fields alone. -/
theorem rolePhase_char (env : Env) (cfg : BotConfig) (w : TaskWeights) (s : BotState)
    (d t : ℚ) (r : TaskWeights × BotState) (hw : wb w)
    (h : rolePhase env cfg w s d t = some r) :
    wb r.1 ∧
    r.2.bIsHoldingFlag = s.bIsHoldingFlag ∧
    r.2.gsFriendlyFlagHome = s.gsFriendlyFlagHome ∧
    r.2.gsEnemyFlagHome = s.gsEnemyFlagHome ∧
    r.2.moveTargetType = s.moveTargetType ∧
    r.2.recentlySeen = s.recentlySeen ∧
    r.2.currentTarget = s.currentTarget ∧
    r.2.timeOfLastLookForEnemy = s.timeOfLastLookForEnemy := by
  unfold rolePhase at h
  split at h
  · exact ⟨offensePhase_wb _ _ _ _ _ _ hw h, offensePhase_proj _ _ _ _ _ _ h⟩
  · have hc := chasePhase_char _ _ _ _ hw h
    rw [hc.1]
    exact ⟨hc.2, rfl, rfl, rfl, rfl, rfl, rfl, rfl⟩
  · injection h with h1
    rw [← h1]
    exact ⟨loPhase_wb _ _ _ hw, rfl, rfl, rfl, rfl, rfl, rfl, rfl⟩
  · injection h with h1
    rw [← h1]
    exact ⟨sahPhase_wb _ _ _ hw, rfl, rfl, rfl, rfl, rfl, rfl, rfl⟩
  · injection h with h1
    rw [← h1]
    exact ⟨hw, rfl, rfl, rfl, rfl, rfl, rfl, rfl⟩

/-- With an empty memory and a null target, the universal block just adds the
look-for-enemies weight. -/
theorem universalPhase_empty (env : Env) (w : TaskWeights) (s : BotState)
    (lt : EAIStates) (a b : ℚ) (hrs : s.recentlySeen = []) (hct : s.currentTarget = none) :
    universalPhase env w s lt a b =
      (twAddW w EAIStates.LookingForEnemy (lookForEnemyWeight lt a b), s) := by
  unfold universalPhase
  rw [if_pos ⟨by rw [hrs]; rfl, hct⟩]

/-- The universal block only rewrites the memory and the current target. -/
theorem universalPhase_proj (env : Env) (w : TaskWeights) (s : BotState)
    (lt : EAIStates) (a b : ℚ) :
    (universalPhase env w s lt a b).2.bIsHoldingFlag = s.bIsHoldingFlag ∧
    (universalPhase env w s lt a b).2.gsFriendlyFlagHome = s.gsFriendlyFlagHome ∧
    (universalPhase env w s lt a b).2.gsEnemyFlagHome = s.gsEnemyFlagHome ∧
    (universalPhase env w s lt a b).2.moveTargetType = s.moveTargetType := by
  unfold universalPhase
  dsimp only
  split_ifs <;> exact ⟨rfl, rfl, rfl, rfl⟩

/-- The universal block keeps the weights bounded provided the look urgency
is. -/
theorem universalPhase_wb (env : Env) (w : TaskWeights) (s : BotState)
    (lt : EAIStates) (a b : ℚ) (hw : wb w) (hwf : EnvWF env)
    (hlook : lookForEnemyWeight lt a b < 9001) :
    wb (universalPhase env w s lt a b).1 := by
  unfold universalPhase
  dsimp only
  split_ifs
  all_goals first
    | exact hw
    | exact wb_add _ _ _ hw hlook
    | exact wb_add _ _ _ hw (lt_of_le_of_lt (focusPick_le _ _ _ hwf) (by norm_num))

/-- The look urgency is bounded when its linear branch is. -/
theorem lookForEnemyWeight_lt (lt : EAIStates) (a b : ℚ) (h : b * 5 < 9001) :
    lookForEnemyWeight lt a b < 9001 := by
  unfold lookForEnemyWeight
  dsimp only
  split_ifs
  · norm_num
  · exact h

/-- The strict-max selection on a bounded map with the override added picks
MoveToTarget. -/
theorem dctSelect_on_override (w : TaskWeights) (d : EAIStates) (hw : wb w) :
    (dctSelect (twAddW w EAIStates.MoveToTarget 9001) d).1 = EAIStates.MoveToTarget := by
  apply dctSelect_dominant
  · exact self_mem_tmapAdd _ _ _
  · intro p hp hne
    rcases mem_tmapAdd _ _ _ p hp with rfl | hp2
    · exact absurd rfl hne
    · exact hw p hp2
  · intro p hp
    rcases mem_tmapAdd _ _ _ p hp with rfl | hp2
    · exact le_refl _
    · exact le_of_lt (hw p hp2)

/-- The post-selection steps keep the selected task whenever the anti-stall
stand override cannot fire. -/
theorem dctFinish_keeps_task (env : Env) (lt : EAIStates) (d : ℚ) (t : BotState)
    (hmt : t.moveTargetType ≠ EAIMoveTargetTypes.EnemyStand)
    (hb : t.bIsHoldingFlag = true) (hh : t.gsFriendlyFlagHome = true) :
    (dctFinish env lt d t).currentTask = t.currentTask := by
  have hcond : ¬(t.currentTask = EAIStates.MoveToTarget ∧ d < 300 ∧
      ((t.moveTargetType = EAIMoveTargetTypes.EnemyStand ∧ ¬t.gsEnemyFlagHome) ∨
        (t.moveTargetType = EAIMoveTargetTypes.FriendlyStand ∧
          (¬t.bIsHoldingFlag ∨ ¬t.gsFriendlyFlagHome)))) := by
    rintro ⟨-, -, hor | hor⟩
    · exact hmt hor.1
    · rcases hor.2 with h2 | h2
      · exact h2 hb
      · exact h2 hh
  unfold dctFinish
  dsimp only
  rw [if_neg hcond]
  split_ifs <;> rfl

/-- With the flag held and the friendly flag home after the front half, the
weight-building half ends with the dominant override entry over an otherwise
bounded map, a state still holding/home, and a stand-or-route move type. -/
theorem dctCore_char (env : Env) (cfg : BotConfig) (s : BotState) (lt : EAIStates)
    (tstc : ℚ) (out : TaskWeights × BotState × ℚ) (hwf : EnvWF env)
    (hhold : (dctAfterMove env cfg s).bIsHoldingFlag = true)
    (hhome : (dctAfterMove env cfg s).gsFriendlyFlagHome = true)
    (hlk : lookForEnemyWeight lt tstc
      (env.now - (dctAfterMove env cfg s).timeOfLastLookForEnemy) < 9001)
    (h : dctCore env cfg s lt tstc = some out) :
    (∃ w0, out.1 = twAddW w0 EAIStates.MoveToTarget 9001 ∧ wb w0) ∧
    out.2.1.bIsHoldingFlag = true ∧ out.2.1.gsFriendlyFlagHome = true ∧
    (out.2.1.moveTargetType = EAIMoveTargetTypes.FriendlyStand ∨
      out.2.1.moveTargetType = EAIMoveTargetTypes.RouteStart) := by
  unfold dctCore at h
  dsimp only at h
  split at h
  · exact Option.noConfusion h
  · rename_i ws heq
    injection h with h1
    subst h1
    have hrp := rolePhase_char env cfg [] (dctAfterMove env cfg s) _ _ ws wb_nil heq
    have hwsb : ws.2.bIsHoldingFlag = true := hrp.2.1.trans hhold
    have hwsh : ws.2.gsFriendlyFlagHome = true := hrp.2.2.1.trans hhome
    have hup := universalPhase_proj env ws.1 ws.2 lt tstc
      (env.now - (dctAfterMove env cfg s).timeOfLastLookForEnemy)
    have husb : (universalPhase env ws.1 ws.2 lt tstc
        (env.now - (dctAfterMove env cfg s).timeOfLastLookForEnemy)).2.bIsHoldingFlag =
          true := hup.1.trans hwsb
    have hush : (universalPhase env ws.1 ws.2 lt tstc
        (env.now - (dctAfterMove env cfg s).timeOfLastLookForEnemy)).2.gsFriendlyFlagHome =
          true := hup.2.1.trans hwsh
    have hwb := universalPhase_wb env ws.1 ws.2 lt tstc
      (env.now - (dctAfterMove env cfg s).timeOfLastLookForEnemy) hrp.1 hwf hlk
    dsimp only
    rw [if_pos ⟨husb, hush⟩]
    refine ⟨⟨(universalPhase env ws.1 ws.2 lt tstc
      (env.now - (dctAfterMove env cfg s).timeOfLastLookForEnemy)).1, rfl, hwb⟩,
      husb, hush, ?_⟩
    rw [hup.2.2.2, hrp.2.2.2.2.1]
    exact dctAfterMove_shape env cfg s hhold hhome

/-- Claim C1 (amended): when the weighting step runs with the flag held and
the friendly flag home, and the look-for-enemies urgency has not itself grown
past the override (timeSinceLastLook × 5 < 9001), DetermineCurrentTask commits
MoveToTarget — for every non-RouteRunner role without the pending-fire hold,
whatever the other candidate weights, and despite the anti-stall stand
override. -/
theorem c1_flag_override_commits_move_to_target (env : Env) (cfg : BotConfig)
    (s s2 : BotState) (hwf : EnvWF env)
    (hrr : ¬cfg.botType = EBotTypes.RouteRunner)
    (hpf : ¬(s.bPendingWeaponFire = true ∧ env.now - s.timeOfTaskStart < 1))
    (hhold : (dctAfterMove env cfg s).bIsHoldingFlag = true)
    (hhome : (dctAfterMove env cfg s).gsFriendlyFlagHome = true)
    (hlook : (env.now - s.timeOfLastLookForEnemy) * 5 < 9001)
    (hrun : determineCurrentTask env cfg s = some s2) :
    s2.currentTask = EAIStates.MoveToTarget := by
  have hlk : lookForEnemyWeight s.currentTask (env.now - s.timeOfTaskStart)
      (env.now - (dctAfterMove env cfg s).timeOfLastLookForEnemy) < 9001 := by
    apply lookForEnemyWeight_lt
    rw [(dctAfterMove_proj env cfg s).2.2]
    exact hlook
  unfold determineCurrentTask at hrun
  dsimp only at hrun
  rw [if_neg hrr, if_neg hpf] at hrun
  split at hrun
  · exact Option.noConfusion hrun
  · rename_i wsd heq
    injection hrun with h2
    subst h2
    obtain ⟨⟨w0, hW, hwb0⟩, hb1, hh1, hshape⟩ :=
      dctCore_char env cfg s s.currentTask (env.now - s.timeOfTaskStart) wsd hwf
        hhold hhome hlk heq
    have hmt : ({ wsd.2.1 with currentTask := EAIStates.MoveToTarget } :
        BotState).moveTargetType ≠ EAIMoveTargetTypes.EnemyStand := by
      show wsd.2.1.moveTargetType ≠ _
      rcases hshape with h3 | h3 <;> rw [h3] <;> simp
    rw [hW, dctSelect_on_override w0 _ hwb0,
      dctFinish_keeps_task env s.currentTask wsd.2.2
        { wsd.2.1 with currentTask := EAIStates.MoveToTarget } hmt hb1 hh1]

/-- Claim C6 (amended): with an empty memory and a null current target, the
LookingForEnemy candidate weight equals timeSinceLastLook × 5, overridden to
the constant 3 exactly when (the last task was not LookingForEnemy and the
task changed at most 2 seconds ago) or (the last task was LookingForEnemy and
the task changed more than 2 seconds ago). -/
theorem c6_look_weight_condition (env : Env) (cfg : BotConfig) (s : BotState)
    (out : TaskWeights × BotState × ℚ)
    (hrs : s.recentlySeen = []) (hct : s.currentTarget = none)
    (h : dctCore env cfg s s.currentTask (env.now - s.timeOfTaskStart) = some out) :
    twGet out.1 EAIStates.LookingForEnemy =
      some (if (s.currentTask ≠ EAIStates.LookingForEnemy ∧
            env.now - s.timeOfTaskStart ≤ 2) ∨
          (s.currentTask = EAIStates.LookingForEnemy ∧ 2 < env.now - s.timeOfTaskStart)
        then 3 else (env.now - s.timeOfLastLookForEnemy) * 5) := by
  unfold dctCore at h
  dsimp only at h
  split at h
  · exact Option.noConfusion h
  · rename_i ws heq
    injection h with h1
    subst h1
    have ham := dctAfterMove_proj env cfg s
    have hrp := rolePhase_char env cfg [] (dctAfterMove env cfg s) _ _ ws wb_nil heq
    have hws_rs : ws.2.recentlySeen = [] := by
      rw [hrp.2.2.2.2.2.1, ham.2.1]
      exact hrs
    have hws_ct : ws.2.currentTarget = none := by
      rw [hrp.2.2.2.2.2.2.1]
      exact dctAfterMove_target_none env cfg s hct
    rw [universalPhase_empty env ws.1 ws.2 s.currentTask (env.now - s.timeOfTaskStart)
      (env.now - (dctAfterMove env cfg s).timeOfLastLookForEnemy) hws_rs hws_ct]
    dsimp only
    rw [ham.2.2]
    by_cases hcond : ws.2.bIsHoldingFlag = true ∧ ws.2.gsFriendlyFlagHome = true
    · rw [if_pos hcond, twGet_twAddW_other _ _ _ _ (by decide), twGet_twAddW_self]
      rfl
    · rw [if_neg hcond, twGet_twAddW_self]
      rfl

/-! ## Concrete cycles for the task-selection claims -/

/-- World for the C1 counterexample: both flags home, the bot carries the
enemy flag, and the last look-for-enemies check is 2000 seconds old. -/
def envC1 : Env := { envBase with now := 100, carried := true }

def sC1X : BotState :=
  { stBase with timeOfTaskStart := 99, timeOfLastLookForEnemy := -1900 }

/-- World for the C1 witness: same carry/home situation with a recent look
check (urgency 25). -/
def envC1W : Env := { envBase with now := 5, carried := true }

def sC1W : BotState := { stBase with currentTask := EAIStates.MoveToTarget }

/-- Claim C1 as stated is refuted: a StayAtHome bot holding the flag with the
friendly flag home, whose look-for-enemies urgency has grown to
timeSinceLastLook × 5 = 10000, ends the cycle on LookingForEnemy — the 9001
override loses to an unbounded candidate weight. -/
theorem c1_look_urgency_beats_flag_override :
    (dctAfterMove envC1 cfgBase sC1X).bIsHoldingFlag = true ∧
    (dctAfterMove envC1 cfgBase sC1X).gsFriendlyFlagHome = true ∧
    cfgBase.botType ≠ EBotTypes.RouteRunner ∧
    sC1X.bPendingWeaponFire = false ∧
    determineCurrentTask envC1 cfgBase sC1X =
      some { sC1X with bIsHoldingFlag := true } ∧
    ({ sC1X with bIsHoldingFlag := true } : BotState).currentTask =
      EAIStates.LookingForEnemy := by
  refine ⟨?_, ?_, by decide, rfl, ?_, rfl⟩
  · norm_num +decide [dctAfterMove, dctRouteStage, dctPruneTarget, determineMoveLocation,
      dmlFullCore, distanceBetweenTargets, distanceToTarget, witnessNorm, vsub,
      ptrIsValidObj, ptrHealthNearlyZero, envC1, envBase, cfgBase, sC1X, stBase, tdBase]
  · norm_num +decide [dctAfterMove, dctRouteStage, dctPruneTarget, determineMoveLocation,
      dmlFullCore, distanceBetweenTargets, distanceToTarget, witnessNorm, vsub,
      ptrIsValidObj, ptrHealthNearlyZero, envC1, envBase, cfgBase, sC1X, stBase, tdBase]
  · norm_num +decide [determineCurrentTask, dctCore, dctAfterMove, dctRouteStage,
      dctPruneTarget, determineMoveLocation, dmlFullCore, distanceBetweenTargets,
      distanceToTarget, witnessNorm, vsub, rolePhase, sahPhase, clampQ,
      universalPhase, lookForEnemyWeight, twAddW, tmapAdd, dctSelect, dctFinish,
      ptrIsValidObj, ptrHealthNearlyZero, envC1, envBase, cfgBase, sC1X, stBase, tdBase]

/-- Witness for the amended C1: a carry/home cycle with bounded look urgency
commits MoveToTarget, with every hypothesis discharged at the concrete
input. -/
theorem c1_flag_override_commits_move_to_target_witness :
    EnvWF envC1W ∧
    ¬cfgBase.botType = EBotTypes.RouteRunner ∧
    ¬(sC1W.bPendingWeaponFire = true ∧ envC1W.now - sC1W.timeOfTaskStart < 1) ∧
    (dctAfterMove envC1W cfgBase sC1W).bIsHoldingFlag = true ∧
    (dctAfterMove envC1W cfgBase sC1W).gsFriendlyFlagHome = true ∧
    (envC1W.now - sC1W.timeOfLastLookForEnemy) * 5 < 9001 ∧
    ({ sC1W with bIsHoldingFlag := true } : BotState).currentTask =
      EAIStates.MoveToTarget := by
  have hwf : EnvWF envC1W := by
    intro id
    constructor <;> norm_num +decide [envC1W, envBase, tdBase, witnessNorm]
  have hrr : ¬cfgBase.botType = EBotTypes.RouteRunner := by decide
  have hpf : ¬(sC1W.bPendingWeaponFire = true ∧ envC1W.now - sC1W.timeOfTaskStart < 1) := by
    norm_num +decide [sC1W, stBase]
  have hhold : (dctAfterMove envC1W cfgBase sC1W).bIsHoldingFlag = true := by
    norm_num +decide [dctAfterMove, dctRouteStage, dctPruneTarget, determineMoveLocation,
      dmlFullCore, distanceBetweenTargets, distanceToTarget, witnessNorm, vsub,
      ptrIsValidObj, ptrHealthNearlyZero, envC1W, envBase, cfgBase, sC1W, stBase, tdBase]
  have hhome : (dctAfterMove envC1W cfgBase sC1W).gsFriendlyFlagHome = true := by
    norm_num +decide [dctAfterMove, dctRouteStage, dctPruneTarget, determineMoveLocation,
      dmlFullCore, distanceBetweenTargets, distanceToTarget, witnessNorm, vsub,
      ptrIsValidObj, ptrHealthNearlyZero, envC1W, envBase, cfgBase, sC1W, stBase, tdBase]
  have hlook : (envC1W.now - sC1W.timeOfLastLookForEnemy) * 5 < 9001 := by
    norm_num +decide [envC1W, envBase, sC1W, stBase]
  have hrun : determineCurrentTask envC1W cfgBase sC1W =
      some { sC1W with bIsHoldingFlag := true } := by
    norm_num +decide [determineCurrentTask, dctCore, dctAfterMove, dctRouteStage,
      dctPruneTarget, determineMoveLocation, dmlFullCore, distanceBetweenTargets,
      distanceToTarget, witnessNorm, vsub, rolePhase, sahPhase, clampQ,
      universalPhase, lookForEnemyWeight, twAddW, tmapAdd, dctSelect, dctFinish,
      ptrIsValidObj, ptrHealthNearlyZero, envC1W, envBase, cfgBase, sC1W, stBase, tdBase]
  exact ⟨hwf, hrr, hpf, hhold, hhome, hlook,
    c1_flag_override_commits_move_to_target envC1W cfgBase sC1W
      { sC1W with bIsHoldingFlag := true } hwf hrr hpf hhold hhome hlook hrun⟩

/-- Chase-role world for C6: friendly flag dropped 1000 units away, memory
empty, no target, the task switched to LookingForEnemy one second ago and the
last look check was two seconds ago. -/
def cfgC6 : BotConfig := { cfgBase with botType := EBotTypes.Chase }

def envC6 : Env :=
  { envBase with now := 100, wFriendlyFlagHome := false,
                 wFriendlyFlagLoc := ⟨0, 1000, 0⟩ }

def sC6 : BotState :=
  { stBase with timeOfTaskStart := 99, timeOfLastLookForEnemy := 98,
                moveTargetType := EAIMoveTargetTypes.FriendlyFlag }

/-- The C6 cycle's weight map, state and distance. -/
def outC6 : TaskWeights × BotState × ℚ :=
  ([(EAIStates.MoveToTarget, 200), (EAIStates.LookingForEnemy, 10)],
   { sC6 with desiredMoveLocation := ⟨0, 1000, 0⟩,
              gsFriendlyFlagLocation := ⟨0, 1000, 0⟩,
              gsFriendlyFlagHome := false,
              distanceToFriendlyFlag := 1000,
              gsFlagState := EAIFlagStates.FriendlyTakenEnemyHome },
   1000)

/-- Claim C6 as stated is refuted: the bot transitioned INTO LookingForEnemy
one second ago — a look-state transition within the last 2 seconds — yet the
computed weight is timeSinceLastLook × 5 = 10, not the constant 3 (the code
uses the constant for an old look transition, not a recent one). -/
theorem c6_recent_look_transition_gets_multiplied_weight :
    sC6.recentlySeen = [] ∧ sC6.currentTarget = none ∧
    sC6.currentTask = EAIStates.LookingForEnemy ∧
    envC6.now - sC6.timeOfTaskStart = 1 ∧
    dctCore envC6 cfgC6 sC6 sC6.currentTask (envC6.now - sC6.timeOfTaskStart) =
      some outC6 ∧
    twGet outC6.1 EAIStates.LookingForEnemy = some 10 ∧
    (10 : ℚ) ≠ 3 := by
  refine ⟨rfl, rfl, rfl, by norm_num +decide [envC6, envBase, sC6, stBase], ?_, ?_, by norm_num⟩
  · norm_num +decide [dctCore, dctAfterMove, dctRouteStage, dctPruneTarget,
      determineMoveLocation, dmlFullCore, distanceBetweenTargets, distanceToTarget,
      witnessNorm, vsub, rolePhase, chasePhase, clampQ, universalPhase,
      lookForEnemyWeight, twAddW, tmapAdd, ptrIsValidObj, ptrHealthNearlyZero,
      envC6, envBase, cfgC6, cfgBase, sC6, stBase, tdBase, outC6]
  · norm_num +decide [twGet, outC6]

/-- Witness for the amended C6: the corrected exception condition evaluated on
the concrete Chase cycle. -/
theorem c6_look_weight_condition_witness :
    twGet outC6.1 EAIStates.LookingForEnemy =
      some (if (sC6.currentTask ≠ EAIStates.LookingForEnemy ∧
            envC6.now - sC6.timeOfTaskStart ≤ 2) ∨
          (sC6.currentTask = EAIStates.LookingForEnemy ∧
            2 < envC6.now - sC6.timeOfTaskStart)
        then 3 else (envC6.now - sC6.timeOfLastLookForEnemy) * 5) :=
  c6_look_weight_condition envC6 cfgC6 sC6 outC6 rfl rfl (by
    norm_num +decide [dctCore, dctAfterMove, dctRouteStage, dctPruneTarget,
      determineMoveLocation, dmlFullCore, distanceBetweenTargets, distanceToTarget,
      witnessNorm, vsub, rolePhase, chasePhase, clampQ, universalPhase,
      lookForEnemyWeight, twAddW, tmapAdd, ptrIsValidObj, ptrHealthNearlyZero,
      envC6, envBase, cfgC6, cfgBase, sC6, stBase, tdBase, outC6])

end MABotAI
